import Mathlib

/-!
# AHT21 temperature / humidity sensor: driver and handler

A shallow embedding of `Core/Src/ec_bsp_aht21_driver.c` and
`Core/Src/ec_bsp_aht21_handler.c`.

* C objects reached through pointers live in a typed memory (`World`), one region per
  struct type; an address is a natural number and `0` is `NULL`.  Dereferencing `NULL`
  or an unmapped address, and calling a null function pointer, is a fault (`none`).
* Everything outside the two translation units (the bus primitives `iic_*`, the
  functions bound in the transport table, the tick source, the yield callback, the
  FreeRTOS queue / semaphore calls) is the environment: a call is recorded in
  `World.trace`, and a value it returns is taken from a stream stored in the world.
  Environment calls do not change the driver's memory.
* A `float` is an IEEE binary32 number, held as the rational it denotes.  Every `float`
  operation and every conversion of an integer to `float` rounds its exact result to the
  nearest value with a 24-bit significand, a tie going to the even significand
  (`f32_round`).  The exponent range is not bounded: the values the driver computes are
  zero or lie between `2^-17` and `2^28` in size, far from overflow and underflow.
-/

namespace AHT21

/-! ## Constants -/

/-- Value `RET_CODE_SUCCESS` of `error_codes.h`. -/
def RET_CODE_SUCCESS : Int := 0
/-- Value `RET_CODE_ERROR_AHT21_INSTANCE_NULL` of `error_codes.h`. -/
def RET_CODE_ERROR_AHT21_INSTANCE_NULL : Int := -1
/-- Value `RET_CODE_ERROR_IIC_INSTANCE_NULL` of `error_codes.h`. -/
def RET_CODE_ERROR_IIC_INSTANCE_NULL : Int := -2
/-- Value `RET_CODE_ERROR_TIMEBASE_NULL` of `error_codes.h`. -/
def RET_CODE_ERROR_TIMEBASE_NULL : Int := -3
/-- Value `RET_CODE_ERROR_RTOS_YEILD_NULL` of `error_codes.h`. -/
def RET_CODE_ERROR_RTOS_YEILD_NULL : Int := -4
/-- Value `RET_CODE_ERROR_TEPM_HUMI_MODLE_ADDR_ERROT` of `error_codes.h`. -/
def RET_CODE_ERROR_TEPM_HUMI_MODLE_ADDR_ERROT : Int := -5
/-- Value `RET_CODE_HAS_BEEN_INSTED` of `error_codes.h`. -/
def RET_CODE_HAS_BEEN_INSTED : Int := -6
/-- Value `RET_CODE_HAS_BEEN_INITED` of `error_codes.h`. -/
def RET_CODE_HAS_BEEN_INITED : Int := -7
/-- Value `RET_CODE_ERROR_PARAM_NULL` of `error_codes.h`.  The header lists this
enumerator five times (`-8`, `-12`, `-13`, `-14`, `-15`); the first value is taken. -/
def RET_CODE_ERROR_PARAM_NULL : Int := -8
/-- Value `RET_CODE_QUEUE_EVENT_NULL` of `error_codes.h`. -/
def RET_CODE_QUEUE_EVENT_NULL : Int := -9
/-- Value `RET_CODE_XSEMAPHORETAKE_FAIL` of `error_codes.h`. -/
def RET_CODE_XSEMAPHORETAKE_FAIL : Int := -10

/-- Bus address `AHT21_ADDR` of `ec_bsp_aht21_reg.h`. -/
def AHT21_ADDR : Nat := 0x38
/-- Delay `AHT21_MEASUREMENT_DELAY_MS` of `ec_bsp_aht21_driver.h`. -/
def AHT21_MEASUREMENT_DELAY_MS : Nat := 75

/-- FreeRTOS `pdTRUE`. -/
def pdTRUE : Nat := 1
/-- FreeRTOS `portMAX_DELAY` for a 32-bit tick type. -/
def portMAX_DELAY : Nat := 0xFFFFFFFF
/-- Size `sizeof(int)` on the 32-bit target. -/
def sizeof_int : Nat := 4

/-! ## Pointers -/

/-- Data pointer (`T *`, `void *`): an address, `0` is `NULL`. -/
abbrev Ptr := Nat

/-- The null data pointer. -/
abbrev NULL : Ptr := 0

/-- Function pointer: null, one of the driver's own functions, or a function supplied
by the caller (identified by a number). -/
inductive FnPtr where
  | null
  | aht21_inst
  | aht21_init
  | aht21_deInit
  | aht21_read_id
  | aht21_read_data
  | user (id : Nat)
  deriving DecidableEq, Repr

/-! ## Struct types -/

/-- Struct `iic_driver_interface_t` of `ec_bsp_aht21_driver.h`. -/
structure iic_driver_interface_t where
  pfInit : FnPtr
  pfDeInit : FnPtr
  pfStart : FnPtr
  pfStop : FnPtr
  pfWaitAck : FnPtr
  pfSendByte : FnPtr
  pfReadByte : FnPtr
  pfSendAck : FnPtr
  pfSendNack : FnPtr
  pfWriteReg : FnPtr
  pfReadReg : FnPtr
  deriving DecidableEq, Repr

/-- Struct `system_timebase_interface_t` of `ec_bsp_aht21_driver.h`. -/
structure system_timebase_interface_t where
  mcu_get_systick_count : FnPtr
  deriving DecidableEq, Repr

/-- Struct `bsp_aht21_t` of `ec_bsp_aht21_driver.h`. -/
structure bsp_aht21_t where
  iic_driver_interface_t : Ptr
  pftimebase_interface : Ptr
  pfInst : FnPtr
  pfinit : FnPtr
  pfdeInit : FnPtr
  pfaht21_read_id : FnPtr
  pfstartMeasurement : FnPtr
  pfaht21_read_data : FnPtr
  pfsoftReset : FnPtr
  pfsleep : FnPtr
  pfwakeup : FnPtr
  pfyield : FnPtr
  deriving DecidableEq, Repr

/-- Struct `bsp_AHT21_handler_arg_struct` of `ec_bsp_aht21_handler.h`. -/
structure bsp_AHT21_handler_arg_struct where
  iic_driver_interface_table : Ptr
  timebase : Ptr
  rtos_yeild : FnPtr
  deriving DecidableEq, Repr

/-- Struct `bsp_aht21_handler_t` of `ec_bsp_aht21_handler.h`. -/
structure bsp_aht21_handler_t where
  iic_driver_interface_table : Ptr
  timebase : Ptr
  temp_humi_event_instance : Ptr
  rtos_yeild : FnPtr
  aht21_instance : Ptr
  pfdeInit : FnPtr
  pfInst : FnPtr
  pfaht21_handler_getTemp_humi_Data : FnPtr
  insted : Ptr
  inited : Ptr
  init_lock : Ptr
  get_temp_humi_data_lock : Ptr
  temp : Ptr
  humi : Ptr
  lifetimes_temp : Ptr
  lifetimes_humi : Ptr
  queue_event : Ptr
  thread_os : Ptr
  deriving DecidableEq, Repr

/-! ## Environment calls -/

/-- One call that leaves the two translation units. -/
inductive Event where
  | pfInit (fn : FnPtr)
  | pfDeInit (fn : FnPtr)
  | pfWriteReg (fn : FnPtr) (addr : Nat) (pdata : List Nat) (size : Nat)
  | mcu_get_systick_count (fn : FnPtr) (value : Nat)
  | pfyield (fn : FnPtr) (aht21_instance : Ptr)
  | iic_Start
  | iic_Stop
  | iic_Send_Byte (addr : Nat) (byte : Nat)
  | iic_wait_ack (addr : Nat)
  | iic_nack (addr : Nat)
  | iic_Read_Byte (addr : Nat) (value : Nat)
  | HAL_RCC_GPIOB_CLK_DISABLE
  | xQueueCreate (length : Nat) (itemSize : Nat) (handle : Ptr)
  | xSemaphoreTake (sem : Ptr) (ticks : Nat) (result : Nat)
  | xSemaphoreGive (sem : Ptr)
  | vSemaphoreDelete (sem : Ptr)
  | vQueueDelete (queue : Ptr)
  deriving DecidableEq, Repr

/-- Memory, the function-local statics of `aht21_inst`, the environment's answers and
the calls made so far. -/
structure World where
  /-- objects of type `iic_driver_interface_t` -/
  iic_mem : Ptr → Option iic_driver_interface_t
  /-- objects of type `system_timebase_interface_t` -/
  timebase_mem : Ptr → Option system_timebase_interface_t
  /-- objects of type `bsp_aht21_t` -/
  aht21_mem : Ptr → Option bsp_aht21_t
  /-- objects of type `bsp_AHT21_handler_arg_struct` -/
  arg_mem : Ptr → Option bsp_AHT21_handler_arg_struct
  /-- objects of type `bsp_aht21_handler_t` -/
  handler_mem : Ptr → Option bsp_aht21_handler_t
  /-- `static iic_driver_interface_t iic_driver_interface` of `aht21_inst` -/
  iic_driver_interface : iic_driver_interface_t
  /-- `static system_timebase_interface_t timebase_interface` of `aht21_inst` -/
  timebase_interface : system_timebase_interface_t
  /-- `static void *rtos_yeild_interface` of `aht21_inst` -/
  rtos_yeild_interface : FnPtr
  /-- value returned by the `n`-th call of the tick accessor -/
  systick : Nat → Nat
  /-- number of tick reads so far -/
  systick_calls : Nat
  /-- byte returned by the `n`-th call of `iic_Read_Byte` -/
  rx : Nat → Nat
  /-- number of bytes read so far -/
  rx_calls : Nat
  /-- handle returned by the `n`-th call of `xQueueCreate` -/
  queue_create : Nat → Ptr
  /-- number of `xQueueCreate` calls so far -/
  queue_calls : Nat
  /-- result of the `n`-th call of `xSemaphoreTake` -/
  sem_take : Nat → Nat
  /-- number of `xSemaphoreTake` calls so far -/
  sem_calls : Nat
  /-- calls made so far, oldest first -/
  trace : List Event

/-- A computation over the world that may fault. -/
def Exec (α : Type) : Type := World → Option (α × World)

/-- Continue a run with `f`, unless it has faulted. -/
def Exec.step {α β : Type} (r : Option (α × World)) (f : α → Exec β) : Option (β × World) :=
  match r with
  | none => none
  | some (a, w) => f a w

/-- A computation that returns `a` and leaves the world as it is. -/
def Exec.pure {α : Type} (a : α) : Exec α := fun w => some (a, w)

/-- Sequencing of computations: a fault stops the run. -/
def Exec.bind {α β : Type} (m : Exec α) (f : α → Exec β) : Exec β :=
  fun w => Exec.step (m w) f

instance : Monad Exec where
  pure := Exec.pure
  bind := Exec.bind

/-- Record an environment call. -/
def emit (e : Event) : Exec Unit :=
  fun w => some ((), { w with trace := w.trace ++ [e] })

/-! ### Memory access -/

/-- Read `*p` for `p : iic_driver_interface_t *`. -/
def load_iic (p : Ptr) : Exec iic_driver_interface_t :=
  fun w => if p = NULL then none else (w.iic_mem p).map (fun v => (v, w))

/-- Update `*p` for `p : iic_driver_interface_t *`. -/
def modify_iic (p : Ptr) (f : iic_driver_interface_t → iic_driver_interface_t) : Exec Unit :=
  fun w => if p = NULL then none else
    (w.iic_mem p).map (fun v => ((), { w with iic_mem := Function.update w.iic_mem p (some (f v)) }))

/-- Read `*p` for `p : system_timebase_interface_t *`. -/
def load_timebase (p : Ptr) : Exec system_timebase_interface_t :=
  fun w => if p = NULL then none else (w.timebase_mem p).map (fun v => (v, w))

/-- Update `*p` for `p : system_timebase_interface_t *`. -/
def modify_timebase (p : Ptr)
    (f : system_timebase_interface_t → system_timebase_interface_t) : Exec Unit :=
  fun w => if p = NULL then none else
    (w.timebase_mem p).map
      (fun v => ((), { w with timebase_mem := Function.update w.timebase_mem p (some (f v)) }))

/-- Read `*p` for `p : bsp_aht21_t *`. -/
def load_aht21 (p : Ptr) : Exec bsp_aht21_t :=
  fun w => if p = NULL then none else (w.aht21_mem p).map (fun v => (v, w))

/-- Update `*p` for `p : bsp_aht21_t *`. -/
def modify_aht21 (p : Ptr) (f : bsp_aht21_t → bsp_aht21_t) : Exec Unit :=
  fun w => if p = NULL then none else
    (w.aht21_mem p).map
      (fun v => ((), { w with aht21_mem := Function.update w.aht21_mem p (some (f v)) }))

/-- Read `*p` for `p : bsp_AHT21_handler_arg_struct *`. -/
def load_arg (p : Ptr) : Exec bsp_AHT21_handler_arg_struct :=
  fun w => if p = NULL then none else (w.arg_mem p).map (fun v => (v, w))

/-- Read `*p` for `p : bsp_aht21_handler_t *`. -/
def load_handler (p : Ptr) : Exec bsp_aht21_handler_t :=
  fun w => if p = NULL then none else (w.handler_mem p).map (fun v => (v, w))

/-- Update `*p` for `p : bsp_aht21_handler_t *`. -/
def modify_handler (p : Ptr) (f : bsp_aht21_handler_t → bsp_aht21_handler_t) : Exec Unit :=
  fun w => if p = NULL then none else
    (w.handler_mem p).map
      (fun v => ((), { w with handler_mem := Function.update w.handler_mem p (some (f v)) }))

/-- Read the static `iic_driver_interface` of `aht21_inst`. -/
def get_iic_driver_interface : Exec iic_driver_interface_t :=
  fun w => some (w.iic_driver_interface, w)

/-- Update the static `iic_driver_interface` of `aht21_inst`. -/
def modify_iic_driver_interface (f : iic_driver_interface_t → iic_driver_interface_t) :
    Exec Unit :=
  fun w => some ((), { w with iic_driver_interface := f w.iic_driver_interface })

/-- Read the static `timebase_interface` of `aht21_inst`. -/
def get_timebase_interface : Exec system_timebase_interface_t :=
  fun w => some (w.timebase_interface, w)

/-- Update the static `timebase_interface` of `aht21_inst`. -/
def modify_timebase_interface
    (f : system_timebase_interface_t → system_timebase_interface_t) : Exec Unit :=
  fun w => some ((), { w with timebase_interface := f w.timebase_interface })

/-- Read the static `rtos_yeild_interface` of `aht21_inst`. -/
def get_rtos_yeild_interface : Exec FnPtr :=
  fun w => some (w.rtos_yeild_interface, w)

/-- Assign the static `rtos_yeild_interface` of `aht21_inst`. -/
def set_rtos_yeild_interface (v : FnPtr) : Exec Unit :=
  fun w => some ((), { w with rtos_yeild_interface := v })

/-! ### Calls through function pointers and to the bus library -/

/-- Call `fn()` through a transport-table slot; `e` is the recorded call. -/
def call (fn : FnPtr) (e : Event) : Exec Unit :=
  fun w => if fn = FnPtr.null then none else emit e w

/-- Call the tick accessor: the next value of the tick stream, as a `uint32_t`. -/
def call_systick (fn : FnPtr) : Exec Nat :=
  fun w => if fn = FnPtr.null then none else
    let v := w.systick w.systick_calls % 2 ^ 32
    some (v, { w with systick_calls := w.systick_calls + 1,
                      trace := w.trace ++ [Event.mcu_get_systick_count fn v] })

/-- Bus library `iic_Read_Byte(addr)`: the next byte of the receive stream, as a
`uint8_t`. -/
def iic_Read_Byte (addr : Nat) : Exec Nat :=
  fun w =>
    let v := w.rx w.rx_calls % 256
    some (v, { w with rx_calls := w.rx_calls + 1,
                      trace := w.trace ++ [Event.iic_Read_Byte addr v] })

/-- Bus library `iic_Start()`. -/
def iic_Start : Exec Unit := emit Event.iic_Start
/-- Bus library `iic_Stop()`. -/
def iic_Stop : Exec Unit := emit Event.iic_Stop
/-- Bus library `iic_Send_Byte(addr, byte)`. -/
def iic_Send_Byte (addr byte : Nat) : Exec Unit := emit (Event.iic_Send_Byte addr byte)
/-- Bus library `iic_wait_ack(addr)`. -/
def iic_wait_ack (addr : Nat) : Exec Unit := emit (Event.iic_wait_ack addr)
/-- Bus library `iic_nack(addr)`. -/
def iic_nack (addr : Nat) : Exec Unit := emit (Event.iic_nack addr)

/-- FreeRTOS `xQueueCreate(length, itemSize)`: the next handle of the stream. -/
def xQueueCreate (length itemSize : Nat) : Exec Ptr :=
  fun w =>
    let h := w.queue_create w.queue_calls
    some (h, { w with queue_calls := w.queue_calls + 1,
                      trace := w.trace ++ [Event.xQueueCreate length itemSize h] })

/-- FreeRTOS `xSemaphoreTake(sem, ticks)`: the next result of the stream. -/
def xSemaphoreTake (sem : Ptr) (ticks : Nat) : Exec Nat :=
  fun w =>
    let r := w.sem_take w.sem_calls
    some (r, { w with sem_calls := w.sem_calls + 1,
                      trace := w.trace ++ [Event.xSemaphoreTake sem ticks r] })

/-- FreeRTOS `xSemaphoreGive(sem)`. -/
def xSemaphoreGive (sem : Ptr) : Exec Unit := emit (Event.xSemaphoreGive sem)
/-- FreeRTOS `vSemaphoreDelete(sem)`. -/
def vSemaphoreDelete (sem : Ptr) : Exec Unit := emit (Event.vSemaphoreDelete sem)
/-- FreeRTOS `vQueueDelete(queue)`. -/
def vQueueDelete (queue : Ptr) : Exec Unit := emit (Event.vQueueDelete queue)

/-! ### Integer conversions -/

/-- Conversion `uint32_t` to `int32_t` (two's complement). -/
def to_int32 (n : Nat) : Int :=
  if n % 2 ^ 32 < 2 ^ 31 then (n % 2 ^ 32 : Nat) else (n % 2 ^ 32 : Nat) - 2 ^ 32

/-- Conversion `uint8_t` to `int8_t` (two's complement). -/
def to_int8 (n : Nat) : Int :=
  if n % 256 < 128 then (n % 256 : Nat) else (n % 256 : Nat) - 256

/-- Unsigned 32-bit difference `now - count`, where `count` is an `int32_t` converted
to `uint32_t` by the usual arithmetic conversions. -/
def elapsed (now : Nat) (count : Int) : Nat :=
  (((now : Int) - count) % 2 ^ 32).toNat

/-! ### `float` arithmetic -/

/-- Nearest integer to `s`; a tie goes to the even neighbour. -/
def round_even (s : ℚ) : ℤ :=
  if s - ⌊s⌋ < 1 / 2 then ⌊s⌋
  else if 1 / 2 < s - ⌊s⌋ then ⌊s⌋ + 1
  else if ⌊s⌋ % 2 = 0 then ⌊s⌋ else ⌊s⌋ + 1

/-- Rounding of a positive rational `a` to binary32: with `2^e <= a < 2^(e+1)` the result
is the multiple of `2^(e-23)` nearest to `a`, a tie going to the even multiple. -/
def f32_round_pos (a : ℚ) : ℚ :=
  (round_even (a / (2 : ℚ) ^ (Int.log 2 a - 23)) : ℚ) * (2 : ℚ) ^ (Int.log 2 a - 23)

/-- Rounding of a rational to binary32 (round to nearest, ties to even). -/
def f32_round (x : ℚ) : ℚ :=
  if x = 0 then 0 else if 0 < x then f32_round_pos x else -f32_round_pos (-x)

/-- Conversion of an unsigned or non-negative integer to `float`. -/
def f32_of_nat (n : Nat) : ℚ := f32_round (n : ℚ)

/-- The `float` product `a * b`. -/
def f32_mul (a b : ℚ) : ℚ := f32_round (a * b)

/-- The `float` quotient `a / b`. -/
def f32_div (a b : ℚ) : ℚ := f32_round (a / b)

/-- The `float` difference `a - b`. -/
def f32_sub (a b : ℚ) : ℚ := f32_round (a - b)

/-! ## Driver: `ec_bsp_aht21_driver.c` -/

/-- Driver function `aht21_deInst`: clears the instance's transport table, tick
accessor and method slots. -/
def aht21_deInst (aht21_instance : Ptr) : Exec Int := do
  if aht21_instance ≠ NULL then
    if (← load_aht21 aht21_instance).iic_driver_interface_t ≠ NULL then
      modify_iic (← load_aht21 aht21_instance).iic_driver_interface_t
        (fun t => { t with pfDeInit := FnPtr.null })
      modify_iic (← load_aht21 aht21_instance).iic_driver_interface_t
        (fun t => { t with pfReadReg := FnPtr.null })
      modify_iic (← load_aht21 aht21_instance).iic_driver_interface_t
        (fun t => { t with pfWriteReg := FnPtr.null })
      modify_iic (← load_aht21 aht21_instance).iic_driver_interface_t
        (fun t => { t with pfInit := FnPtr.null })
      modify_iic (← load_aht21 aht21_instance).iic_driver_interface_t
        (fun t => { t with pfStart := FnPtr.null })
      modify_iic (← load_aht21 aht21_instance).iic_driver_interface_t
        (fun t => { t with pfStop := FnPtr.null })
      modify_iic (← load_aht21 aht21_instance).iic_driver_interface_t
        (fun t => { t with pfWaitAck := FnPtr.null })
      modify_iic (← load_aht21 aht21_instance).iic_driver_interface_t
        (fun t => { t with pfSendByte := FnPtr.null })
      modify_iic (← load_aht21 aht21_instance).iic_driver_interface_t
        (fun t => { t with pfReadByte := FnPtr.null })
      modify_iic (← load_aht21 aht21_instance).iic_driver_interface_t
        (fun t => { t with pfSendAck := FnPtr.null })
      modify_iic (← load_aht21 aht21_instance).iic_driver_interface_t
        (fun t => { t with pfSendNack := FnPtr.null })
      modify_aht21 aht21_instance (fun s => { s with iic_driver_interface_t := NULL })
    if (← load_aht21 aht21_instance).pftimebase_interface ≠ NULL then
      modify_timebase (← load_aht21 aht21_instance).pftimebase_interface
        (fun t => { t with mcu_get_systick_count := FnPtr.null })
    modify_aht21 aht21_instance (fun s => { s with pfdeInit := FnPtr.null })
    modify_aht21 aht21_instance (fun s => { s with pfinit := FnPtr.null })
    modify_aht21 aht21_instance (fun s => { s with pfaht21_read_id := FnPtr.null })
    modify_aht21 aht21_instance (fun s => { s with pfaht21_read_data := FnPtr.null })
    modify_aht21 aht21_instance (fun s => { s with pfyield := FnPtr.null })
    modify_aht21 aht21_instance (fun s => { s with pfInst := FnPtr.null })
  pure 0

/-- Driver function `aht21_read_id`. -/
def aht21_read_id (_aht21_instance : Ptr) : Exec Int :=
  pure (to_int8 AHT21_ADDR)

/-- Driver function `aht21_init`. -/
def aht21_init (aht21_instance : Ptr) : Exec Int := do
  let fnInit := (← load_iic (← load_aht21 aht21_instance).iic_driver_interface_t).pfInit
  call fnInit (Event.pfInit fnInit)
  let count : Int := to_int32 (← call_systick
    (← load_timebase (← load_aht21 aht21_instance).pftimebase_interface).mcu_get_systick_count)
  let now ← call_systick
    (← load_timebase (← load_aht21 aht21_instance).pftimebase_interface).mcu_get_systick_count
  if elapsed now count < 70 then
    let fnYield := (← load_aht21 aht21_instance).pfyield
    call fnYield (Event.pfyield fnYield aht21_instance)
  iic_Start
  iic_Send_Byte AHT21_ADDR 0x71
  iic_wait_ack AHT21_ADDR
  let readBuffer ← iic_Read_Byte AHT21_ADDR
  iic_Stop
  if readBuffer &&& 0x80 = 0x00 then
    iic_Start
    iic_Send_Byte AHT21_ADDR 0xBE
    iic_nack AHT21_ADDR
    iic_Stop
  pure (to_int8 readBuffer)

/-- Driver function `aht21_deInit`. -/
def aht21_deInit (aht21_instance : Ptr) : Exec Int := do
  let fnDeInit := (← load_iic (← load_aht21 aht21_instance).iic_driver_interface_t).pfDeInit
  call fnDeInit (Event.pfDeInit fnDeInit)
  emit Event.HAL_RCC_GPIOB_CLK_DISABLE
  let _ ← aht21_deInst aht21_instance
  pure RET_CODE_SUCCESS

/-- Loop `for (int i = 0; i < 6; i++) readBuffer[i] = iic_Read_Byte(AHT21_ADDR);` of
`aht21_read_data`, for `n` iterations: the bytes in the order they were stored. -/
def read_loop : Nat → Exec (List Nat)
  | 0 => pure []
  | n + 1 => do
    let b ← iic_Read_Byte AHT21_ADDR
    let rest ← read_loop n
    pure (b :: rest)

/-- Driver function `aht21_read_data`.  `temp` and `humi` are the values held by the
caller's two `float` cells before the call; the result carries the return code and the
values they hold after it.  In `data * 200.0f / (1 << 20) - 50` the integers `data`,
`1 << 20` and `50` are converted to `float` and each operation is a `float` operation. -/
def aht21_read_data (aht21_instance : Ptr) (temp humi : ℚ) : Exec (Int × ℚ × ℚ) := do
  let send_arry : List Nat := [0xAC, 0x33, 0x00]
  let fnWriteReg :=
    (← load_iic (← load_aht21 aht21_instance).iic_driver_interface_t).pfWriteReg
  call fnWriteReg (Event.pfWriteReg fnWriteReg AHT21_ADDR send_arry 3)
  let count : Int := to_int32 (← call_systick
    (← load_timebase (← load_aht21 aht21_instance).pftimebase_interface).mcu_get_systick_count)
  let now ← call_systick
    (← load_timebase (← load_aht21 aht21_instance).pftimebase_interface).mcu_get_systick_count
  if elapsed now count < 75 then
    let fnYield := (← load_aht21 aht21_instance).pfyield
    call fnYield (Event.pfyield fnYield aht21_instance)
  iic_wait_ack AHT21_ADDR
  let readBuffer ← read_loop 6
  iic_Stop
  if readBuffer.getD 0 0 &&& 0x80 = 0x00 then
    let data : Nat :=
      ((readBuffer.getD 3 0 >>> 4) + (readBuffer.getD 2 0 <<< 4)
        + (readBuffer.getD 1 0 <<< 12)) % 2 ^ 32
    pure (RET_CODE_SUCCESS,
          f32_sub (f32_div (f32_mul (f32_of_nat data) 200) (f32_of_nat (1 <<< 20)))
            (f32_of_nat 50),
          f32_div (f32_mul (f32_of_nat data) 100) (f32_of_nat (1 <<< 20)))
  else
    pure (-1, temp, humi)

/-- Statement `aht21_instance->iic_driver_interface_t->F = iic_instance->F;` of
`aht21_inst`, where `set src` writes field `F` from `src`. -/
def mount_iic (aht21_instance iic_instance : Ptr)
    (set : iic_driver_interface_t → iic_driver_interface_t → iic_driver_interface_t) :
    Exec Unit := do
  let src ← load_iic iic_instance
  modify_iic (← load_aht21 aht21_instance).iic_driver_interface_t (set src)

/-- Driver function `aht21_inst`. -/
def aht21_inst (aht21_instance iic_instance timebase : Ptr) (rtos_yeild : FnPtr) :
    Exec Int := do
  if aht21_instance = NULL then pure RET_CODE_ERROR_AHT21_INSTANCE_NULL
  else if iic_instance = NULL then pure RET_CODE_ERROR_IIC_INSTANCE_NULL
  else if timebase = NULL then pure RET_CODE_ERROR_TIMEBASE_NULL
  else if rtos_yeild = FnPtr.null then pure RET_CODE_ERROR_RTOS_YEILD_NULL
  else do
    let src ← load_iic iic_instance
    modify_iic_driver_interface (fun s => { s with pfDeInit := src.pfDeInit })
    let src ← load_iic iic_instance
    modify_iic_driver_interface (fun s => { s with pfReadReg := src.pfReadReg })
    let src ← load_iic iic_instance
    modify_iic_driver_interface (fun s => { s with pfWriteReg := src.pfWriteReg })
    let src ← load_iic iic_instance
    modify_iic_driver_interface (fun s => { s with pfInit := src.pfInit })
    let s ← get_iic_driver_interface
    if s.pfDeInit = FnPtr.null ∨ s.pfInit = FnPtr.null ∨ s.pfStart = FnPtr.null ∨
        s.pfStop = FnPtr.null ∨ s.pfWaitAck = FnPtr.null ∨ s.pfSendByte = FnPtr.null ∨
        s.pfReadByte = FnPtr.null then do
      let _ ← aht21_deInst aht21_instance
      pure RET_CODE_ERROR_PARAM_NULL
    else do
      mount_iic aht21_instance iic_instance (fun src t => { t with pfDeInit := src.pfDeInit })
      mount_iic aht21_instance iic_instance (fun src t => { t with pfInit := src.pfInit })
      mount_iic aht21_instance iic_instance (fun src t => { t with pfStart := src.pfStart })
      mount_iic aht21_instance iic_instance (fun src t => { t with pfStop := src.pfStop })
      mount_iic aht21_instance iic_instance
        (fun src t => { t with pfWaitAck := src.pfWaitAck })
      mount_iic aht21_instance iic_instance
        (fun src t => { t with pfSendByte := src.pfSendByte })
      mount_iic aht21_instance iic_instance
        (fun src t => { t with pfReadByte := src.pfReadByte })
      mount_iic aht21_instance iic_instance
        (fun src t => { t with pfSendAck := src.pfSendAck })
      mount_iic aht21_instance iic_instance
        (fun src t => { t with pfSendNack := src.pfSendNack })
      let tb ← load_timebase timebase
      modify_timebase_interface
        (fun s => { s with mcu_get_systick_count := tb.mcu_get_systick_count })
      if (← get_timebase_interface).mcu_get_systick_count = FnPtr.null then do
        let _ ← aht21_deInst aht21_instance
        pure RET_CODE_ERROR_TIMEBASE_NULL
      else do
        modify_aht21 aht21_instance (fun s => { s with pftimebase_interface := timebase })
        set_rtos_yeild_interface rtos_yeild
        if (← get_rtos_yeild_interface) = FnPtr.null then do
          let _ ← aht21_deInst aht21_instance
          pure RET_CODE_ERROR_RTOS_YEILD_NULL
        else do
          modify_aht21 aht21_instance (fun s => { s with pfyield := rtos_yeild })
          modify_aht21 aht21_instance (fun s => { s with pfinit := FnPtr.aht21_init })
          modify_aht21 aht21_instance
            (fun s => { s with pfaht21_read_id := FnPtr.aht21_read_id })
          modify_aht21 aht21_instance (fun s => { s with pfdeInit := FnPtr.aht21_deInit })
          if (0x38 : Int) ≠ (← aht21_read_id aht21_instance) then do
            let _ ← aht21_deInst aht21_instance
            pure RET_CODE_ERROR_TEPM_HUMI_MODLE_ADDR_ERROT
          else do
            modify_aht21 aht21_instance
              (fun s => { s with pfaht21_read_data := FnPtr.aht21_read_data })
            let inst ← load_aht21 aht21_instance
            if inst.pfdeInit = FnPtr.null ∨ inst.pfinit = FnPtr.null ∨
                inst.pfaht21_read_id = FnPtr.null ∨
                inst.pfaht21_read_data = FnPtr.null then do
              let _ ← aht21_deInst aht21_instance
              pure RET_CODE_ERROR_PARAM_NULL
            else
              pure RET_CODE_SUCCESS

/-! ## Handler: `ec_bsp_aht21_handler.c`

`aht21_handler_inst` is not embedded.  Past its two guards it calls `aht21_handler_init`
with the addresses of its own pointer parameters, so what that call reads as the handler
and the argument struct, and what it writes, is the caller's stack frame; the typed memory
of `World` has no stack layout to say what is found there. -/

/-- Handler function `aht21_handler_init`. -/
def aht21_handler_init (bsp_AHT21_handler_arg_instance bsp_aht21_handler_instance : Ptr) :
    Exec Int := do
  if (← load_handler bsp_aht21_handler_instance).inited ≠ 0 then
    pure RET_CODE_HAS_BEEN_INITED
  else if bsp_AHT21_handler_arg_instance = NULL then pure RET_CODE_ERROR_PARAM_NULL
  else if (← load_arg bsp_AHT21_handler_arg_instance).iic_driver_interface_table = NULL then
    pure RET_CODE_ERROR_PARAM_NULL
  else if (← load_arg bsp_AHT21_handler_arg_instance).rtos_yeild = FnPtr.null then
    pure RET_CODE_ERROR_PARAM_NULL
  else if (← load_arg bsp_AHT21_handler_arg_instance).timebase = NULL then
    pure RET_CODE_ERROR_PARAM_NULL
  else do
    let q ← xQueueCreate 10 sizeof_int
    modify_handler bsp_aht21_handler_instance (fun h => { h with queue_event := q })
    if (← load_handler bsp_aht21_handler_instance).queue_event = NULL then
      pure RET_CODE_QUEUE_EVENT_NULL
    else if (← xSemaphoreTake (← load_handler bsp_aht21_handler_instance).init_lock
        portMAX_DELAY) ≠ pdTRUE then do
      vSemaphoreDelete (← load_handler bsp_aht21_handler_instance).init_lock
      vQueueDelete (← load_handler bsp_aht21_handler_instance).queue_event
      pure RET_CODE_XSEMAPHORETAKE_FAIL
    else do
      xSemaphoreGive (← load_handler bsp_aht21_handler_instance).init_lock
      let code ← aht21_inst (← load_handler bsp_aht21_handler_instance).aht21_instance
        (← load_arg bsp_AHT21_handler_arg_instance).iic_driver_interface_table
        (← load_arg bsp_AHT21_handler_arg_instance).timebase
        (← load_arg bsp_AHT21_handler_arg_instance).rtos_yeild
      if code ≠ 0 then pure code
      else do
        let code ← aht21_init (← load_handler bsp_aht21_handler_instance).aht21_instance
        if code ≠ 0 then pure code
        else do
          modify_handler bsp_aht21_handler_instance (fun h => { h with inited := 1 })
          pure RET_CODE_SUCCESS

/-- Handler function `aht21_handler_deInit`. -/
def aht21_handler_deInit (bsp_aht21_handler_instance : Ptr) : Exec Int := do
  if bsp_aht21_handler_instance ≠ NULL then
    vSemaphoreDelete (← load_handler bsp_aht21_handler_instance).init_lock
    vQueueDelete (← load_handler bsp_aht21_handler_instance).queue_event
  pure RET_CODE_SUCCESS

/-- Handler function `aht21_handler_deInst`. -/
def aht21_handler_deInst (handler : Ptr) : Exec Int := do
  if handler ≠ NULL then
    let _ ← aht21_handler_deInit handler
    modify_handler handler (fun h => { h with insted := 0 })
    modify_handler handler (fun h => { h with inited := 0 })
    modify_handler handler (fun h => { h with init_lock := NULL })
    modify_handler handler (fun h => { h with get_temp_humi_data_lock := NULL })
    modify_handler handler (fun h => { h with temp := NULL })
    modify_handler handler (fun h => { h with humi := NULL })
    modify_handler handler (fun h => { h with lifetimes_temp := NULL })
    modify_handler handler (fun h => { h with lifetimes_humi := NULL })
    modify_handler handler (fun h => { h with queue_event := NULL })
    modify_handler handler (fun h => { h with aht21_instance := NULL })
    modify_handler handler (fun h => { h with thread_os := NULL })
    if NULL ≠ (← load_handler handler).aht21_instance then
      let _ ← aht21_deInit (← load_handler handler).aht21_instance
  pure RET_CODE_SUCCESS

/-! ## Vocabulary of the properties -/

/-- The `i`-th byte the bus will deliver from world `w` on, as a `uint8_t`. -/
def frame_byte (w : World) (i : Nat) : Nat := w.rx (w.rx_calls + i) % 256

/-- The first tick value read from world `w` on, as a `uint32_t`. -/
def tick0 (w : World) : Nat := w.systick w.systick_calls % 2 ^ 32

/-- The second tick value read from world `w` on, as a `uint32_t`. -/
def tick1 (w : World) : Nat := w.systick (w.systick_calls + 1) % 2 ^ 32

/-- The value `data` that `aht21_read_data` assembles from the frame. -/
def frame_data (w : World) : Nat :=
  ((frame_byte w 3 >>> 4) + (frame_byte w 2 <<< 4) + (frame_byte w 1 <<< 12)) % 2 ^ 32

/-- The 20-bit humidity field of the frame: bytes 1 and 2, then the top nibble of byte 3. -/
def raw_humidity (w : World) : Nat :=
  frame_byte w 1 * 2 ^ 12 + frame_byte w 2 * 2 ^ 4 + (frame_byte w 3 >>> 4)

/-- The sensor instance at `p` is bound: `inst` is the instance, `tbl` its transport table
and `tb` its timebase, and the slots `aht21_read_data` calls are non-null. -/
structure ReadReady (w : World) (p : Ptr) (inst : bsp_aht21_t) (tbl : iic_driver_interface_t)
    (tb : system_timebase_interface_t) : Prop where
  instance_ne : p ≠ NULL
  instance_at : w.aht21_mem p = some inst
  table_ne : inst.iic_driver_interface_t ≠ NULL
  table_at : w.iic_mem inst.iic_driver_interface_t = some tbl
  write_ne : tbl.pfWriteReg ≠ FnPtr.null
  timebase_ne : inst.pftimebase_interface ≠ NULL
  timebase_at : w.timebase_mem inst.pftimebase_interface = some tb
  tick_ne : tb.mcu_get_systick_count ≠ FnPtr.null
  yield_ne : inst.pfyield ≠ FnPtr.null

/-- The calls one run of `aht21_read_data` makes from world `w`, in order. -/
def read_data_calls (w : World) (p : Ptr) (inst : bsp_aht21_t) (tbl : iic_driver_interface_t)
    (tb : system_timebase_interface_t) : List Event :=
  [Event.pfWriteReg tbl.pfWriteReg AHT21_ADDR [0xAC, 0x33, 0x00] 3,
   Event.mcu_get_systick_count tb.mcu_get_systick_count (tick0 w),
   Event.mcu_get_systick_count tb.mcu_get_systick_count (tick1 w)]
  ++ (if elapsed (tick1 w) (to_int32 (tick0 w)) < 75 then [Event.pfyield inst.pfyield p] else [])
  ++ [Event.iic_wait_ack AHT21_ADDR]
  ++ (List.range 6).map (fun i => Event.iic_Read_Byte AHT21_ADDR (frame_byte w i))
  ++ [Event.iic_Stop]

/-- Calls that reach the two-wire bus: the transport table's functions and the bus
library. -/
def is_bus_call : Event → Bool
  | Event.pfInit _ => true
  | Event.pfDeInit _ => true
  | Event.pfWriteReg _ _ _ _ => true
  | Event.iic_Start => true
  | Event.iic_Stop => true
  | Event.iic_Send_Byte _ _ => true
  | Event.iic_wait_ack _ => true
  | Event.iic_nack _ => true
  | Event.iic_Read_Byte _ _ => true
  | _ => false

/-- Minimum measurement latency on a list of calls: no byte is read before a tick value
has been returned that lies at least `AHT21_MEASUREMENT_DELAY_MS` ticks (mod `2 ^ 32`)
after the first tick value returned.  `start` is the first tick value seen so far and
`waited` tells whether such a later tick value has been seen. -/
def min_latency_respected : Option Nat → Bool → List Event → Bool
  | _, _, [] => true
  | none, waited, Event.mcu_get_systick_count _ v :: rest =>
      min_latency_respected (some v) waited rest
  | some t0, waited, Event.mcu_get_systick_count _ v :: rest =>
      min_latency_respected (some t0)
        (waited || decide (AHT21_MEASUREMENT_DELAY_MS ≤ (v + 2 ^ 32 - t0 % 2 ^ 32) % 2 ^ 32)) rest
  | start, waited, Event.iic_Read_Byte _ _ :: rest =>
      waited && min_latency_respected start waited rest
  | start, waited, _ :: rest => min_latency_respected start waited rest

/-- The sensor instance at `p` is bound for `aht21_init`: `inst` is the instance, `tbl` its
transport table and `tb` its timebase, and the slots `aht21_init` calls are non-null. -/
structure InitReady (w : World) (p : Ptr) (inst : bsp_aht21_t) (tbl : iic_driver_interface_t)
    (tb : system_timebase_interface_t) : Prop where
  instance_ne : p ≠ NULL
  instance_at : w.aht21_mem p = some inst
  table_ne : inst.iic_driver_interface_t ≠ NULL
  table_at : w.iic_mem inst.iic_driver_interface_t = some tbl
  init_ne : tbl.pfInit ≠ FnPtr.null
  timebase_ne : inst.pftimebase_interface ≠ NULL
  timebase_at : w.timebase_mem inst.pftimebase_interface = some tb
  tick_ne : tb.mcu_get_systick_count ≠ FnPtr.null
  yield_ne : inst.pfyield ≠ FnPtr.null

/-- The calls one run of `aht21_init` makes from world `w`, in order. -/
def init_calls (w : World) (p : Ptr) (inst : bsp_aht21_t) (tbl : iic_driver_interface_t)
    (tb : system_timebase_interface_t) : List Event :=
  [Event.pfInit tbl.pfInit,
   Event.mcu_get_systick_count tb.mcu_get_systick_count (tick0 w),
   Event.mcu_get_systick_count tb.mcu_get_systick_count (tick1 w)]
  ++ (if elapsed (tick1 w) (to_int32 (tick0 w)) < 70 then [Event.pfyield inst.pfyield p] else [])
  ++ [Event.iic_Start, Event.iic_Send_Byte AHT21_ADDR 0x71, Event.iic_wait_ack AHT21_ADDR,
      Event.iic_Read_Byte AHT21_ADDR (frame_byte w 0), Event.iic_Stop]
  ++ (if frame_byte w 0 &&& 0x80 = 0x00 then
        [Event.iic_Start, Event.iic_Send_Byte AHT21_ADDR 0xBE, Event.iic_nack AHT21_ADDR,
         Event.iic_Stop]
      else [])

/-- The instance struct after the assignments of `aht21_deInst`. -/
def unbound (inst : bsp_aht21_t) : bsp_aht21_t :=
  { inst with iic_driver_interface_t := NULL, pfdeInit := FnPtr.null, pfinit := FnPtr.null,
              pfaht21_read_id := FnPtr.null, pfaht21_read_data := FnPtr.null,
              pfyield := FnPtr.null, pfInst := FnPtr.null }

/-- The pointers `aht21_deInst` follows from the instance at `p` are null or valid. -/
structure DeInstReady (w : World) (p : Ptr) (inst : bsp_aht21_t) : Prop where
  instance_ne : p ≠ NULL
  instance_at : w.aht21_mem p = some inst
  table_ok : inst.iic_driver_interface_t = NULL ∨
    ∃ tbl, w.iic_mem inst.iic_driver_interface_t = some tbl
  timebase_ok : inst.pftimebase_interface = NULL ∨
    ∃ tb, w.timebase_mem inst.pftimebase_interface = some tb

/-- The handler struct after the eleven assignments of `aht21_handler_deInst`. -/
def cleared (h : bsp_aht21_handler_t) : bsp_aht21_handler_t :=
  { h with insted := 0, inited := 0, init_lock := NULL, get_temp_humi_data_lock := NULL,
           temp := NULL, humi := NULL, lifetimes_temp := NULL, lifetimes_humi := NULL,
           queue_event := NULL, aht21_instance := NULL, thread_os := NULL }

/-! ## Sample inputs -/

/-- A transport table with every slot bound. -/
def full_table : iic_driver_interface_t :=
  { pfInit := FnPtr.user 1, pfDeInit := FnPtr.user 2, pfStart := FnPtr.user 3,
    pfStop := FnPtr.user 4, pfWaitAck := FnPtr.user 5, pfSendByte := FnPtr.user 6,
    pfReadByte := FnPtr.user 7, pfSendAck := FnPtr.user 8, pfSendNack := FnPtr.user 9,
    pfWriteReg := FnPtr.user 10, pfReadReg := FnPtr.user 11 }

/-- The zero-filled transport table: the start value of the static of `aht21_inst`. -/
def null_table : iic_driver_interface_t :=
  { pfInit := FnPtr.null, pfDeInit := FnPtr.null, pfStart := FnPtr.null,
    pfStop := FnPtr.null, pfWaitAck := FnPtr.null, pfSendByte := FnPtr.null,
    pfReadByte := FnPtr.null, pfSendAck := FnPtr.null, pfSendNack := FnPtr.null,
    pfWriteReg := FnPtr.null, pfReadReg := FnPtr.null }

/-- A timebase with its tick accessor bound. -/
def full_timebase : system_timebase_interface_t :=
  { mcu_get_systick_count := FnPtr.user 12 }

/-- A sensor instance with table at address `1`, timebase at address `1` and every slot
that the driver sets bound. -/
def bound_sensor : bsp_aht21_t :=
  { iic_driver_interface_t := 1, pftimebase_interface := 1, pfInst := FnPtr.aht21_inst,
    pfinit := FnPtr.aht21_init, pfdeInit := FnPtr.aht21_deInit,
    pfaht21_read_id := FnPtr.aht21_read_id, pfstartMeasurement := FnPtr.null,
    pfaht21_read_data := FnPtr.aht21_read_data, pfsoftReset := FnPtr.null,
    pfsleep := FnPtr.null, pfwakeup := FnPtr.null, pfyield := FnPtr.user 20 }

/-- Arguments of the handler: caller's table at address `2`, timebase at address `1`. -/
def full_arg : bsp_AHT21_handler_arg_struct :=
  { iic_driver_interface_table := 2, timebase := 1, rtos_yeild := FnPtr.user 20 }

/-- A handler that owns the sensor at address `1`, the lock `7` and the queue `9`;
`inited` is the value of its `inited` field. -/
def sample_handler (inited : Ptr) : bsp_aht21_handler_t :=
  { iic_driver_interface_table := 2, timebase := 1, temp_humi_event_instance := NULL,
    rtos_yeild := FnPtr.user 20, aht21_instance := 1, pfdeInit := FnPtr.null,
    pfInst := FnPtr.null, pfaht21_handler_getTemp_humi_Data := FnPtr.null,
    insted := 0, inited := inited, init_lock := 7, get_temp_humi_data_lock := NULL,
    temp := NULL, humi := NULL, lifetimes_temp := NULL, lifetimes_humi := NULL,
    queue_event := 9, thread_os := NULL }

/-- The bytes of `l`, then zeros. -/
def bytes (l : List Nat) : Nat → Nat := fun n => l.getD n 0

/-- A world at program start (statics zero-filled, no call made yet): the sensor
`bound_sensor` at address `1` with its table `full_table` at address `1`, the caller's
table `full_table` at address `2`, the timebase at address `1`, the handler arguments at
address `1` and the handler `h` at address `1`.  The tick source answers `systick`, the
bus delivers `rx`, `xQueueCreate` returns `9` and `xSemaphoreTake` returns `pdTRUE`. -/
def sample_world (systick rx : Nat → Nat) (h : bsp_aht21_handler_t) : World :=
  { iic_mem := fun p => if p = 1 ∨ p = 2 then some full_table else none,
    timebase_mem := fun p => if p = 1 then some full_timebase else none,
    aht21_mem := fun p => if p = 1 then some bound_sensor else none,
    arg_mem := fun p => if p = 1 then some full_arg else none,
    handler_mem := fun p => if p = 1 then some h else none,
    iic_driver_interface := null_table,
    timebase_interface := { mcu_get_systick_count := FnPtr.null },
    rtos_yeild_interface := FnPtr.null,
    systick := systick, systick_calls := 0, rx := rx, rx_calls := 0,
    queue_create := fun _ => 9, queue_calls := 0, sem_take := fun _ => pdTRUE, sem_calls := 0,
    trace := [] }

/-- The frame `{0x00, 0x19, 0x99, 0x9A, 0x66, 0x66}`. -/
def sample_frame : Nat → Nat := bytes [0x00, 0x19, 0x99, 0x9A, 0x66, 0x66]

/-! ## Running computations -/

theorem run_pure {α : Type} (a : α) (w : World) : (pure a : Exec α) w = some (a, w) := rfl

theorem run_bind {α β : Type} (m : Exec α) (f : α → Exec β) (w : World) :
    (m >>= f) w = Exec.step (m w) f := rfl

theorem step_some {α β : Type} (a : α) (w : World) (f : α → Exec β) :
    Exec.step (some (a, w)) f = f a w := rfl

theorem step_none {α β : Type} (f : α → Exec β) :
    Exec.step (none : Option (α × World)) f = none := rfl

@[congr]
theorem step_congr {α β : Type} {r r' : Option (α × World)} (h : r = r') (f : α → Exec β) :
    Exec.step r f = Exec.step r' f := by rw [h]

theorem run_emit (e : Event) (w : World) :
    emit e w = some ((), { w with trace := w.trace ++ [e] }) := rfl

theorem run_call (fn : FnPtr) (e : Event) (w : World) (h : fn ≠ FnPtr.null) :
    call fn e w = some ((), { w with trace := w.trace ++ [e] }) := by
  simp [call, h, emit]

theorem run_call_systick (fn : FnPtr) (w : World) (h : fn ≠ FnPtr.null) :
    call_systick fn w = some (w.systick w.systick_calls % 2 ^ 32,
      { w with systick_calls := w.systick_calls + 1,
               trace := w.trace ++
                 [Event.mcu_get_systick_count fn (w.systick w.systick_calls % 2 ^ 32)] }) := by
  simp [call_systick, h]

theorem run_load_aht21 (p : Ptr) (w : World) (v : bsp_aht21_t) (hp : p ≠ NULL)
    (h : w.aht21_mem p = some v) : load_aht21 p w = some (v, w) := by
  simp [load_aht21, hp, h]

theorem run_load_iic (p : Ptr) (w : World) (v : iic_driver_interface_t) (hp : p ≠ NULL)
    (h : w.iic_mem p = some v) : load_iic p w = some (v, w) := by
  simp [load_iic, hp, h]

theorem run_load_timebase (p : Ptr) (w : World) (v : system_timebase_interface_t)
    (hp : p ≠ NULL) (h : w.timebase_mem p = some v) : load_timebase p w = some (v, w) := by
  simp [load_timebase, hp, h]

theorem step_pure_eq {α β : Type} (x : Option (α × World)) (c r : β) (w' : World)
    (h : Exec.step x (fun _ => (pure c : Exec β)) = some (r, w')) : r = c := by
  cases x with
  | none => simp [step_none] at h
  | some v =>
    obtain ⟨a, w1⟩ := v
    rw [step_some, run_pure] at h
    simp only [Option.some.injEq, Prod.mk.injEq] at h
    exact h.1.symm

theorem load_iic_apply (p : Ptr) (w : World) :
    load_iic p w = if p = NULL then none else (w.iic_mem p).map (fun v => (v, w)) := rfl

theorem load_aht21_apply (p : Ptr) (w : World) :
    load_aht21 p w = if p = NULL then none else (w.aht21_mem p).map (fun v => (v, w)) := rfl

theorem load_handler_apply (p : Ptr) (w : World) :
    load_handler p w = if p = NULL then none else (w.handler_mem p).map (fun v => (v, w)) := rfl

theorem modify_aht21_apply (p : Ptr) (f : bsp_aht21_t → bsp_aht21_t) (w : World) :
    modify_aht21 p f w = if p = NULL then none else
      (w.aht21_mem p).map
        (fun v => ((), { w with aht21_mem := Function.update w.aht21_mem p (some (f v)) })) :=
  rfl

theorem modify_iic_apply (p : Ptr) (f : iic_driver_interface_t → iic_driver_interface_t)
    (w : World) :
    modify_iic p f w = if p = NULL then none else
      (w.iic_mem p).map
        (fun v => ((), { w with iic_mem := Function.update w.iic_mem p (some (f v)) })) :=
  rfl

theorem modify_timebase_apply (p : Ptr)
    (f : system_timebase_interface_t → system_timebase_interface_t) (w : World) :
    modify_timebase p f w = if p = NULL then none else
      (w.timebase_mem p).map
        (fun v =>
          ((), { w with timebase_mem := Function.update w.timebase_mem p (some (f v)) })) :=
  rfl

theorem modify_handler_apply (p : Ptr) (f : bsp_aht21_handler_t → bsp_aht21_handler_t)
    (w : World) :
    modify_handler p f w = if p = NULL then none else
      (w.handler_mem p).map
        (fun v => ((), { w with handler_mem := Function.update w.handler_mem p (some (f v)) })) :=
  rfl

theorem run_modify_iic_driver_interface (f : iic_driver_interface_t → iic_driver_interface_t)
    (w : World) :
    modify_iic_driver_interface f w
      = some ((), { w with iic_driver_interface := f w.iic_driver_interface }) := rfl

theorem run_get_iic_driver_interface (w : World) :
    get_iic_driver_interface w = some (w.iic_driver_interface, w) := rfl

/-! ## `float` rounding -/

theorem round_even_le (s : ℚ) (N : ℤ) (h : s ≤ N) : round_even s ≤ N := by
  have hf : ⌊s⌋ ≤ N := Int.cast_le.mp (le_trans (Int.floor_le s) h)
  unfold round_even
  split_ifs with h1 h2 h3
  · exact hf
  · have : (⌊s⌋ : ℚ) < N := by linarith
    have : ⌊s⌋ < N := by exact_mod_cast this
    omega
  · exact hf
  · have h4 : s - ⌊s⌋ = 1 / 2 := le_antisymm (not_lt.mp h2) (not_lt.mp h1)
    have : (⌊s⌋ : ℚ) < N := by linarith
    have : ⌊s⌋ < N := by exact_mod_cast this
    omega

theorem le_round_even (s : ℚ) (N : ℤ) (h : (N : ℚ) ≤ s) : N ≤ round_even s := by
  have hf : N ≤ ⌊s⌋ := Int.le_floor.mpr h
  unfold round_even
  split_ifs <;> omega

theorem round_even_intCast (N : ℤ) : round_even (N : ℚ) = N := by
  unfold round_even
  simp

theorem abs_round_even_sub_le (s : ℚ) : |(round_even s : ℚ) - s| ≤ 1 / 2 := by
  have h0 := Int.floor_le s
  have h1 := Int.lt_floor_add_one s
  unfold round_even
  split_ifs with h1 h2 h3
  · rw [abs_le]; constructor <;> linarith
  · rw [abs_le]; push_cast; constructor <;> linarith
  · rw [abs_le]; constructor <;> linarith
  · have h4 : s - ⌊s⌋ = 1 / 2 := le_antisymm (not_lt.mp h2) (not_lt.mp h1)
    rw [abs_le]; push_cast; constructor <;> linarith

/-! ### Positive arguments -/

theorem two_zpow_pos (k : ℤ) : (0 : ℚ) < (2 : ℚ) ^ k := zpow_pos (by norm_num) k

theorem zpow_log_le (a : ℚ) (ha : 0 < a) : (2 : ℚ) ^ Int.log 2 a ≤ a := by
  have h := Int.zpow_log_le_self (b := 2) (r := a) (by norm_num) ha
  simpa using h

theorem lt_zpow_log_succ (a : ℚ) : a < (2 : ℚ) ^ (Int.log 2 a + 1) := by
  have h := Int.lt_zpow_succ_log_self (b := 2) (by norm_num) a
  simpa using h

/-- The exponent of a positive rational is determined by the binade it lies in. -/
theorem log_eq_of_mem (a : ℚ) (e : ℤ) (h1 : (2 : ℚ) ^ e ≤ a) (h2 : a < (2 : ℚ) ^ (e + 1)) :
    Int.log 2 a = e := by
  have ha : 0 < a := lt_of_lt_of_le (two_zpow_pos e) h1
  have hle : e ≤ Int.log 2 a := by
    rw [← Int.zpow_le_iff_le_log (b := 2) (by norm_num) ha]
    simpa using h1
  have hlt : Int.log 2 a < e + 1 := by
    rw [← Int.lt_zpow_iff_log_lt (b := 2) (by norm_num) ha]
    simpa using h2
  omega

theorem zpow_sub_23_mul (e : ℤ) : (2 : ℚ) ^ (e - 23) * 8388608 = (2 : ℚ) ^ e := by
  have h : (8388608 : ℚ) = (2 : ℚ) ^ (23 : ℤ) := by norm_num
  rw [h, ← zpow_add₀ (by norm_num : (2 : ℚ) ≠ 0)]
  congr 1
  omega

theorem zpow_sub_23_mul_succ (e : ℤ) : (2 : ℚ) ^ (e - 23) * 16777216 = (2 : ℚ) ^ (e + 1) := by
  have h : (16777216 : ℚ) = (2 : ℚ) ^ (24 : ℤ) := by norm_num
  rw [h, ← zpow_add₀ (by norm_num : (2 : ℚ) ≠ 0)]
  congr 1
  omega

/-- The scaled significand of a positive rational lies in `[2^23, 2^24)`. -/
theorem significand_bounds (a : ℚ) (ha : 0 < a) :
    (8388608 : ℚ) ≤ a / (2 : ℚ) ^ (Int.log 2 a - 23) ∧
      a / (2 : ℚ) ^ (Int.log 2 a - 23) < 16777216 := by
  have hq := two_zpow_pos (Int.log 2 a - 23)
  constructor
  · rw [le_div_iff₀ hq, mul_comm, zpow_sub_23_mul]
    exact zpow_log_le a ha
  · rw [div_lt_iff₀ hq, mul_comm, zpow_sub_23_mul_succ]
    exact lt_zpow_log_succ a

/-- The rounded significand lies in `[2^23, 2^24]`. -/
theorem round_significand_bounds (a : ℚ) (ha : 0 < a) :
    8388608 ≤ round_even (a / (2 : ℚ) ^ (Int.log 2 a - 23)) ∧
      round_even (a / (2 : ℚ) ^ (Int.log 2 a - 23)) ≤ 16777216 := by
  obtain ⟨h1, h2⟩ := significand_bounds a ha
  constructor
  · exact le_round_even _ 8388608 (by exact_mod_cast h1)
  · exact round_even_le _ 16777216 (by exact_mod_cast h2.le)

theorem f32_round_pos_pos (a : ℚ) (ha : 0 < a) : 0 < f32_round_pos a := by
  unfold f32_round_pos
  have h := (round_significand_bounds a ha).1
  have hq := two_zpow_pos (Int.log 2 a - 23)
  have : (0 : ℚ) < (round_even (a / (2 : ℚ) ^ (Int.log 2 a - 23)) : ℚ) := by
    exact_mod_cast (by omega : (0 : ℤ) < round_even (a / (2 : ℚ) ^ (Int.log 2 a - 23)))
  positivity

/-- Rounding moves a positive value by at most `2^-24` of its size. -/
theorem f32_round_pos_err (a : ℚ) (ha : 0 < a) : |f32_round_pos a - a| ≤ a / 16777216 := by
  unfold f32_round_pos
  have hq := two_zpow_pos (Int.log 2 a - 23)
  have h1 := (significand_bounds a ha).1
  have he := abs_round_even_sub_le (a / (2 : ℚ) ^ (Int.log 2 a - 23))
  have ha' : a = a / (2 : ℚ) ^ (Int.log 2 a - 23) * (2 : ℚ) ^ (Int.log 2 a - 23) := by
    field_simp
  generalize a / (2 : ℚ) ^ (Int.log 2 a - 23) = s at *
  generalize (2 : ℚ) ^ (Int.log 2 a - 23) = q at *
  rw [abs_le] at he ⊢
  subst ha'
  constructor <;> nlinarith [he.1, he.2, h1, hq]

theorem log_lt_of_lt_zpow (a : ℚ) (ha : 0 < a) (x : ℤ) (h : a < (2 : ℚ) ^ x) :
    Int.log 2 a < x := by
  rw [← Int.lt_zpow_iff_log_lt (b := 2) (by norm_num) ha]
  simpa using h

/-- A value `N * 2^k` with `N < 2^24` is a whole multiple of the rounding step of every
positive value it bounds. -/
theorem step_divides (a : ℚ) (ha : 0 < a) (N k : ℤ) (hN : N < 16777216)
    (h : a ≤ (N : ℚ) * (2 : ℚ) ^ k) :
    ∃ n : ℕ, (N : ℚ) * (2 : ℚ) ^ k
      = ((N * 2 ^ n : ℤ) : ℚ) * (2 : ℚ) ^ (Int.log 2 a - 23) := by
  have hk := two_zpow_pos k
  have hlt : a < (2 : ℚ) ^ (24 + k) := by
    have h24 : (2 : ℚ) ^ (24 + k) = 16777216 * (2 : ℚ) ^ k := by
      rw [zpow_add₀ (by norm_num : (2 : ℚ) ≠ 0)]; norm_num
    have hNq : (N : ℚ) < 16777216 := by exact_mod_cast hN
    rw [h24]
    calc a ≤ (N : ℚ) * (2 : ℚ) ^ k := h
      _ < 16777216 * (2 : ℚ) ^ k := by nlinarith
  have he := log_lt_of_lt_zpow a ha _ hlt
  refine ⟨(k - (Int.log 2 a - 23)).toNat, ?_⟩
  have hn : ((k - (Int.log 2 a - 23)).toNat : ℤ) = k - (Int.log 2 a - 23) :=
    Int.toNat_of_nonneg (by omega)
  have hp : ((2 : ℚ) ^ (k - (Int.log 2 a - 23)).toNat) = (2 : ℚ) ^ (k - (Int.log 2 a - 23)) := by
    rw [← zpow_natCast, hn]
  push_cast
  rw [hp, mul_assoc, ← zpow_add₀ (by norm_num : (2 : ℚ) ≠ 0)]
  congr 2
  omega

/-- Rounding leaves a positive value with a 24-bit significand as it is. -/
theorem f32_round_pos_exact (m k : ℤ) (hm0 : 0 < m) (hm : m < 16777216) :
    f32_round_pos ((m : ℚ) * (2 : ℚ) ^ k) = (m : ℚ) * (2 : ℚ) ^ k := by
  have hk := two_zpow_pos k
  have hmq : (0 : ℚ) < (m : ℚ) := by exact_mod_cast hm0
  have ha : (0 : ℚ) < (m : ℚ) * (2 : ℚ) ^ k := by positivity
  obtain ⟨n, hn⟩ := step_divides _ ha m k hm le_rfl
  have hq := two_zpow_pos (Int.log 2 ((m : ℚ) * (2 : ℚ) ^ k) - 23)
  unfold f32_round_pos
  have hs : (m : ℚ) * (2 : ℚ) ^ k / (2 : ℚ) ^ (Int.log 2 ((m : ℚ) * (2 : ℚ) ^ k) - 23)
      = ((m * 2 ^ n : ℤ) : ℚ) := by
    rw [div_eq_iff hq.ne']
    exact hn
  rw [hs, round_even_intCast]
  exact hn.symm

/-- Rounding does not carry a positive value above a bound with a 24-bit significand. -/
theorem f32_round_pos_le (a : ℚ) (ha : 0 < a) (N k : ℤ) (hN : N < 16777216)
    (h : a ≤ (N : ℚ) * (2 : ℚ) ^ k) : f32_round_pos a ≤ (N : ℚ) * (2 : ℚ) ^ k := by
  obtain ⟨n, hn⟩ := step_divides a ha N k hN h
  have hq := two_zpow_pos (Int.log 2 a - 23)
  unfold f32_round_pos
  rw [hn]
  have hs : a / (2 : ℚ) ^ (Int.log 2 a - 23) ≤ ((N * 2 ^ n : ℤ) : ℚ) := by
    rw [div_le_iff₀ hq, ← hn]
    exact h
  have hr := round_even_le _ _ hs
  have hrq : (round_even (a / (2 : ℚ) ^ (Int.log 2 a - 23)) : ℚ) ≤ ((N * 2 ^ n : ℤ) : ℚ) := by
    exact_mod_cast hr
  exact mul_le_mul_of_nonneg_right hrq hq.le

/-- Rounding of a positive value whose binade is known. -/
theorem f32_round_pos_of_mem (a : ℚ) (e : ℤ) (h1 : (2 : ℚ) ^ e ≤ a)
    (h2 : a < (2 : ℚ) ^ (e + 1)) :
    f32_round_pos a = (round_even (a / (2 : ℚ) ^ (e - 23)) : ℚ) * (2 : ℚ) ^ (e - 23) := by
  unfold f32_round_pos
  rw [log_eq_of_mem a e h1 h2]

/-- Rounding commutes with scaling by a power of two. -/
theorem f32_round_pos_scale (a : ℚ) (ha : 0 < a) (k : ℤ) :
    f32_round_pos (a * (2 : ℚ) ^ k) = f32_round_pos a * (2 : ℚ) ^ k := by
  have hk := two_zpow_pos k
  have h2 : (2 : ℚ) ≠ 0 := by norm_num
  have e1 : (2 : ℚ) ^ (Int.log 2 a + k) ≤ a * (2 : ℚ) ^ k := by
    rw [zpow_add₀ h2]
    exact mul_le_mul_of_nonneg_right (zpow_log_le a ha) hk.le
  have e2 : a * (2 : ℚ) ^ k < (2 : ℚ) ^ (Int.log 2 a + k + 1) := by
    have : (2 : ℚ) ^ (Int.log 2 a + k + 1) = (2 : ℚ) ^ (Int.log 2 a + 1) * (2 : ℚ) ^ k := by
      rw [← zpow_add₀ h2]; congr 1; omega
    rw [this]
    exact mul_lt_mul_of_pos_right (lt_zpow_log_succ a) hk
  rw [f32_round_pos_of_mem _ _ e1 e2]
  unfold f32_round_pos
  have hq : (2 : ℚ) ^ (Int.log 2 a + k - 23) = (2 : ℚ) ^ (Int.log 2 a - 23) * (2 : ℚ) ^ k := by
    rw [← zpow_add₀ h2]; congr 1; omega
  rw [hq, mul_div_mul_right _ _ hk.ne', mul_assoc]

/-- The result of rounding a positive value has a 24-bit significand. -/
theorem f32_round_pos_repr (a : ℚ) (ha : 0 < a) :
    ∃ m k : ℤ, 0 < m ∧ m < 16777216 ∧ f32_round_pos a = (m : ℚ) * (2 : ℚ) ^ k := by
  obtain ⟨h1, h2⟩ := round_significand_bounds a ha
  by_cases hr : round_even (a / (2 : ℚ) ^ (Int.log 2 a - 23)) < 16777216
  · exact ⟨_, Int.log 2 a - 23, by omega, hr, rfl⟩
  · have e : round_even (a / (2 : ℚ) ^ (Int.log 2 a - 23)) = 16777216 := by omega
    refine ⟨8388608, Int.log 2 a - 22, by norm_num, by norm_num, ?_⟩
    unfold f32_round_pos
    rw [e]
    have : (2 : ℚ) ^ (Int.log 2 a - 22) = (2 : ℚ) ^ (Int.log 2 a - 23) * 2 := by
      rw [← zpow_add_one₀ (by norm_num : (2 : ℚ) ≠ 0)]; congr 1; omega
    rw [this]
    push_cast
    ring

theorem f32_round_pos_idem (a : ℚ) (ha : 0 < a) :
    f32_round_pos (f32_round_pos a) = f32_round_pos a := by
  obtain ⟨m, k, hm0, hm, e⟩ := f32_round_pos_repr a ha
  rw [e, f32_round_pos_exact m k hm0 hm]

/-! ### All arguments -/

theorem f32_round_zero : f32_round 0 = 0 := by
  simp [f32_round]

theorem f32_round_of_pos (x : ℚ) (hx : 0 < x) : f32_round x = f32_round_pos x := by
  simp [f32_round, hx, hx.ne']

theorem f32_round_of_neg (x : ℚ) (hx : x < 0) : f32_round x = -f32_round_pos (-x) := by
  simp [f32_round, hx.ne, not_lt.mpr hx.le]

theorem f32_round_neg (x : ℚ) : f32_round (-x) = -f32_round x := by
  rcases lt_trichotomy x 0 with h | h | h
  · rw [f32_round_of_neg x h, f32_round_of_pos (-x) (by linarith), neg_neg]
  · subst h; simp [f32_round_zero]
  · rw [f32_round_of_pos x h, f32_round_of_neg (-x) (by linarith), neg_neg]

theorem f32_round_nonneg (x : ℚ) (hx : 0 ≤ x) : 0 ≤ f32_round x := by
  rcases hx.eq_or_lt with h | h
  · subst h; rw [f32_round_zero]
  · rw [f32_round_of_pos x h]; exact (f32_round_pos_pos x h).le

theorem f32_round_nonpos (x : ℚ) (hx : x ≤ 0) : f32_round x ≤ 0 := by
  have h := f32_round_nonneg (-x) (by linarith)
  rw [f32_round_neg] at h
  linarith

/-- Rounding leaves a value with a 24-bit significand as it is. -/
theorem f32_round_exact (m k : ℤ) (hm : |m| < 16777216) :
    f32_round ((m : ℚ) * (2 : ℚ) ^ k) = (m : ℚ) * (2 : ℚ) ^ k := by
  have hk := two_zpow_pos k
  rcases lt_trichotomy m 0 with h | h | h
  · have hm' : -m < 16777216 := by rw [abs_lt] at hm; omega
    have e : (m : ℚ) * (2 : ℚ) ^ k = -(((-m : ℤ) : ℚ) * (2 : ℚ) ^ k) := by push_cast; ring
    have hp : (0 : ℚ) < ((-m : ℤ) : ℚ) * (2 : ℚ) ^ k := by
      have : (0 : ℚ) < ((-m : ℤ) : ℚ) := by exact_mod_cast (by omega : (0 : ℤ) < -m)
      positivity
    rw [e, f32_round_neg, f32_round_of_pos _ hp, f32_round_pos_exact (-m) k (by omega) hm']
  · subst h; simp [f32_round_zero]
  · have hm' : m < 16777216 := by rw [abs_lt] at hm; omega
    have hp : (0 : ℚ) < (m : ℚ) * (2 : ℚ) ^ k := by
      have : (0 : ℚ) < (m : ℚ) := by exact_mod_cast h
      positivity
    rw [f32_round_of_pos _ hp, f32_round_pos_exact m k h hm']

/-- Conversion of an integer below `2^24` to `float` is exact. -/
theorem f32_round_natCast (n : ℕ) (hn : n < 16777216) : f32_round (n : ℚ) = n := by
  have h := f32_round_exact (n : ℤ) 0 (by rw [abs_lt]; omega)
  simpa using h

/-- Rounding does not carry a value above a bound with a 24-bit significand. -/
theorem f32_round_le (x : ℚ) (N k : ℤ) (hN0 : 0 ≤ N) (hN : N < 16777216)
    (h : x ≤ (N : ℚ) * (2 : ℚ) ^ k) : f32_round x ≤ (N : ℚ) * (2 : ℚ) ^ k := by
  have hk := two_zpow_pos k
  have hb : (0 : ℚ) ≤ (N : ℚ) * (2 : ℚ) ^ k := by
    have : (0 : ℚ) ≤ (N : ℚ) := by exact_mod_cast hN0
    positivity
  rcases le_or_lt x 0 with hx | hx
  · exact le_trans (f32_round_nonpos x hx) hb
  · rw [f32_round_of_pos x hx]
    exact f32_round_pos_le x hx N k hN h

/-- Rounding does not carry a value below a bound with a 24-bit significand. -/
theorem le_f32_round (x : ℚ) (N k : ℤ) (hN0 : 0 ≤ N) (hN : N < 16777216)
    (h : -((N : ℚ) * (2 : ℚ) ^ k) ≤ x) : -((N : ℚ) * (2 : ℚ) ^ k) ≤ f32_round x := by
  have h' := f32_round_le (-x) N k hN0 hN (by linarith)
  rw [f32_round_neg] at h'
  linarith

/-- Rounding commutes with scaling by a power of two. -/
theorem f32_round_scale (x : ℚ) (k : ℤ) :
    f32_round (x * (2 : ℚ) ^ k) = f32_round x * (2 : ℚ) ^ k := by
  have hk := two_zpow_pos k
  rcases lt_trichotomy x 0 with h | h | h
  · have hx : x * (2 : ℚ) ^ k < 0 := by nlinarith
    rw [f32_round_of_neg _ hx, f32_round_of_neg _ h, ← neg_mul,
      f32_round_pos_scale (-x) (by linarith) k, neg_mul]
  · subst h; simp [f32_round_zero]
  · have hx : 0 < x * (2 : ℚ) ^ k := by positivity
    rw [f32_round_of_pos _ hx, f32_round_of_pos _ h, f32_round_pos_scale x h k]

/-- Division by `2^20` is exact. -/
theorem f32_round_div_two_pow (x : ℚ) : f32_round (x / 1048576) = f32_round x / 1048576 := by
  have h : (1048576 : ℚ)⁻¹ = (2 : ℚ) ^ (-20 : ℤ) := by norm_num [zpow_neg]
  rw [div_eq_mul_inv, div_eq_mul_inv, h, f32_round_scale]

theorem f32_round_idem (x : ℚ) : f32_round (f32_round x) = f32_round x := by
  rcases lt_trichotomy x 0 with h | h | h
  · rw [f32_round_of_neg x h, f32_round_neg,
      f32_round_of_pos _ (f32_round_pos_pos _ (by linarith)),
      f32_round_pos_idem _ (by linarith)]
  · subst h; simp [f32_round_zero]
  · rw [f32_round_of_pos x h, f32_round_of_pos _ (f32_round_pos_pos _ h),
      f32_round_pos_idem _ h]

/-- Rounding moves a value by at most `2^-24` of its size. -/
theorem f32_round_err (x : ℚ) : |f32_round x - x| ≤ |x| / 16777216 := by
  rcases lt_trichotomy x 0 with h | h | h
  · rw [f32_round_of_neg x h, abs_of_neg h]
    have := f32_round_pos_err (-x) (by linarith)
    rw [abs_le] at this ⊢
    constructor <;> linarith [this.1, this.2]
  · subst h; simp [f32_round_zero]
  · rw [f32_round_of_pos x h, abs_of_pos h]
    exact f32_round_pos_err x h

/-- Rounding of a positive value whose binade is known. -/
theorem f32_round_of_mem (a : ℚ) (e : ℤ) (h1 : (2 : ℚ) ^ e ≤ a)
    (h2 : a < (2 : ℚ) ^ (e + 1)) :
    f32_round a = (round_even (a / (2 : ℚ) ^ (e - 23)) : ℚ) * (2 : ℚ) ^ (e - 23) := by
  rw [f32_round_of_pos a (lt_of_lt_of_le (two_zpow_pos e) h1), f32_round_pos_of_mem a e h1 h2]

/-- The tie `67108900 = 8388612.5 * 8` goes to the even significand `8388612`. -/
theorem f32_round_67108900 : f32_round 67108900 = 67108896 := by
  rw [f32_round_of_mem 67108900 26 (by norm_num) (by norm_num)]
  have hs : (67108900 : ℚ) / (2 : ℚ) ^ ((26 : ℤ) - 23) = 16777225 / 2 := by norm_num
  have hf : ⌊(16777225 / 2 : ℚ)⌋ = 8388612 := by
    rw [Int.floor_eq_iff]; norm_num
  have hr : round_even (16777225 / 2 : ℚ) = 8388612 := by
    unfold round_even
    rw [hf]
    norm_num
  rw [hs, hr]
  norm_num

/-! ### The two values `aht21_read_data` stores -/

theorem f32_of_nat_exact (n : ℕ) (hn : n < 16777216) : f32_of_nat n = n :=
  f32_round_natCast n hn

/-- The stored humidity: the product `data * 100.0f` is the only step that rounds. -/
theorem stored_humidity_eq (data : ℕ) (hd : data < 16777216) :
    f32_div (f32_mul (f32_of_nat data) 100) (f32_of_nat (1 <<< 20))
      = f32_round ((data : ℚ) * 100) / 2 ^ 20 := by
  have h20 : (1 <<< 20 : ℕ) = 1048576 := by decide
  rw [h20, f32_of_nat_exact data hd, f32_of_nat_exact 1048576 (by norm_num)]
  unfold f32_div f32_mul
  push_cast
  rw [f32_round_div_two_pow, f32_round_idem]
  norm_num

/-- The stored temperature: the product `data * 200.0f` and the difference round. -/
theorem stored_temperature_eq (data : ℕ) (hd : data < 16777216) :
    f32_sub (f32_div (f32_mul (f32_of_nat data) 200) (f32_of_nat (1 <<< 20))) (f32_of_nat 50)
      = f32_round (f32_round ((data : ℚ) * 200) / 2 ^ 20 - 50) := by
  have h20 : (1 <<< 20 : ℕ) = 1048576 := by decide
  rw [h20, f32_of_nat_exact data hd, f32_of_nat_exact 1048576 (by norm_num),
    f32_of_nat_exact 50 (by norm_num)]
  unfold f32_sub f32_div f32_mul
  push_cast
  rw [f32_round_div_two_pow, f32_round_idem]
  norm_num

/-- Rounding leaves `x` as it is when `x = m * 2^k` with `|m| < 2^24`. -/
theorem f32_round_eq_self (x : ℚ) (m k : ℤ) (hm : |m| < 16777216)
    (hx : x = (m : ℚ) * (2 : ℚ) ^ k) : f32_round x = x := by
  rw [hx]
  exact f32_round_exact m k hm

/-! ## `aht21_read_data` -/

theorem read_loop_run (n : Nat) (w : World) :
    read_loop n w = some ((List.range n).map (fun i => w.rx (w.rx_calls + i) % 256),
      { w with rx_calls := w.rx_calls + n,
               trace := w.trace ++ (List.range n).map
                 (fun i => Event.iic_Read_Byte AHT21_ADDR (w.rx (w.rx_calls + i) % 256)) }) := by
  induction n generalizing w with
  | zero => simp [read_loop, run_pure]
  | succ n ih =>
    simp only [read_loop, run_bind, iic_Read_Byte, step_some, ih, run_pure]
    simp [List.range_succ_eq_map, Nat.add_assoc, Nat.add_comm 1, Function.comp_def]

/-- One run of `aht21_read_data` on a bound instance: the result and the world after. -/
theorem aht21_read_data_run (w : World) (p : Ptr) (temp humi : ℚ) (inst : bsp_aht21_t)
    (tbl : iic_driver_interface_t) (tb : system_timebase_interface_t)
    (h : ReadReady w p inst tbl tb) :
    aht21_read_data p temp humi w =
      some (if frame_byte w 0 &&& 0x80 = 0 then
              (RET_CODE_SUCCESS,
                f32_sub (f32_div (f32_mul (f32_of_nat (frame_data w)) 200)
                  (f32_of_nat (1 <<< 20))) (f32_of_nat 50),
                f32_div (f32_mul (f32_of_nat (frame_data w)) 100) (f32_of_nat (1 <<< 20)))
            else (-1, temp, humi),
            { w with systick_calls := w.systick_calls + 2,
                     rx_calls := w.rx_calls + 6,
                     trace := w.trace ++ read_data_calls w p inst tbl tb }) := by
  obtain ⟨h1, h2, h3, h4, h5, h6, h7, h8, h9⟩ := h
  unfold aht21_read_data
  have hb : ((List.range 6).map (fun i => w.rx (w.rx_calls + i) % 256)).getD 0 0
      = frame_byte w 0 := rfl
  have e1 : ((List.range 6).map (fun i => w.rx (w.rx_calls + i) % 256)).getD 1 0
      = frame_byte w 1 := rfl
  have e2 : ((List.range 6).map (fun i => w.rx (w.rx_calls + i) % 256)).getD 2 0
      = frame_byte w 2 := rfl
  have e3 : ((List.range 6).map (fun i => w.rx (w.rx_calls + i) % 256)).getD 3 0
      = frame_byte w 3 := rfl
  have hl : (List.range 6).map (fun i => Event.iic_Read_Byte AHT21_ADDR (frame_byte w i))
      = (List.range 6).map
          (fun i => Event.iic_Read_Byte AHT21_ADDR (w.rx (w.rx_calls + i) % 256)) := rfl
  by_cases hy : elapsed (tick1 w) (to_int32 (tick0 w)) < 75 <;>
  by_cases hf : frame_byte w 0 &&& 0x80 = 0 <;>
  · simp only [read_data_calls, hy, hf, if_true, if_false, frame_data, hl]
    simp only [tick0, tick1] at hy
    simp (disch := assumption) only [run_bind, run_load_aht21, run_load_iic, run_load_timebase,
      run_call, run_call_systick, step_some, run_pure, run_emit, iic_wait_ack, iic_Stop,
      read_loop_run, hy, hb, e1, e2, e3, hf, if_true, if_false, tick0, tick1, List.append_assoc,
      List.cons_append, List.nil_append, List.append_nil, Nat.add_assoc]

theorem frame_byte_lt (w : World) (i : Nat) : frame_byte w i < 256 :=
  Nat.mod_lt _ (by decide)

/-- The assembled value has no carry between its three fields. -/
theorem frame_data_eq (w : World) :
    frame_data w = frame_byte w 1 * 2 ^ 12 + frame_byte w 2 * 2 ^ 4 + (frame_byte w 3 >>> 4) := by
  have h1 := frame_byte_lt w 1
  have h2 := frame_byte_lt w 2
  have h3 := frame_byte_lt w 3
  simp only [frame_data, Nat.shiftLeft_eq, Nat.shiftRight_eq_div_pow]
  omega

theorem frame_data_eq_raw (w : World) : frame_data w = raw_humidity w :=
  frame_data_eq w

theorem frame_data_lt (w : World) : frame_data w < 2 ^ 20 := by
  have h1 := frame_byte_lt w 1
  have h2 := frame_byte_lt w 2
  have h3 := frame_byte_lt w 3
  rw [frame_data_eq]
  simp only [Nat.shiftRight_eq_div_pow]
  omega

/-- Bit 7 of a value is clear exactly when masking with `0x80` gives zero. -/
theorem and_0x80_eq_zero_iff (b : Nat) : b &&& 0x80 = 0 ↔ b.testBit 7 = false := by
  have h := Nat.and_two_pow b 7
  norm_num at h
  rw [h]
  cases b.testBit 7 <;> simp

theorem sample_ready (systick rx : Nat → Nat) (h : bsp_aht21_handler_t) :
    ReadReady (sample_world systick rx h) 1 bound_sensor full_table full_timebase :=
  ⟨by decide, rfl, by decide, rfl, by decide, by decide, rfl, by decide, by decide⟩

/-- The driver's elapsed-time expression is the tick difference modulo `2 ^ 32`. -/
theorem elapsed_to_int32 (t1 t0 : Nat) (h0 : t0 < 2 ^ 32) :
    elapsed t1 (to_int32 t0) = (t1 + 2 ^ 32 - t0) % 2 ^ 32 := by
  unfold elapsed to_int32
  rw [Nat.mod_eq_of_lt h0]
  split <;> omega

/-- The calls of one run of `aht21_read_data` respect the minimum measurement latency
exactly when the second tick value read already lies 75 ticks after the first. -/
theorem read_data_calls_latency (w : World) (p : Ptr) (inst : bsp_aht21_t)
    (tbl : iic_driver_interface_t) (tb : system_timebase_interface_t) :
    min_latency_respected none false (read_data_calls w p inst tbl tb)
      = decide (75 ≤ (tick1 w + 2 ^ 32 - tick0 w) % 2 ^ 32) := by
  have h0 : tick0 w < 2 ^ 32 := Nat.mod_lt _ (by decide)
  norm_num at h0
  unfold read_data_calls
  split <;>
  · simp only [min_latency_respected, List.range_succ, List.range_zero, List.map_append,
      List.map_cons, List.map_nil, List.nil_append, List.cons_append, List.append_nil,
      Bool.false_or, Bool.and_true, Bool.and_self, AHT21_MEASUREMENT_DELAY_MS]
    norm_num
    rw [Nat.mod_eq_of_lt h0]

/-! ## `aht21_init`, `aht21_deInst` and `aht21_inst` -/

/-- One run of `aht21_init` on a bound instance: it returns the status byte read from the
device, converted to `int8_t`. -/
theorem aht21_init_run (w : World) (p : Ptr) (inst : bsp_aht21_t)
    (tbl : iic_driver_interface_t) (tb : system_timebase_interface_t)
    (h : InitReady w p inst tbl tb) :
    aht21_init p w =
      some (to_int8 (frame_byte w 0),
            { w with systick_calls := w.systick_calls + 2,
                     rx_calls := w.rx_calls + 1,
                     trace := w.trace ++ init_calls w p inst tbl tb }) := by
  obtain ⟨h1, h2, h3, h4, h5, h6, h7, h8, h9⟩ := h
  unfold aht21_init
  by_cases hy : elapsed (tick1 w) (to_int32 (tick0 w)) < 70 <;>
  by_cases hf : frame_byte w 0 &&& 0x80 = 0 <;>
  · simp only [init_calls, hy, hf, if_true, if_false]
    simp only [tick0, tick1] at hy
    simp only [frame_byte, Nat.add_zero] at hf
    simp (disch := assumption) only [run_bind, run_load_aht21, run_load_iic, run_load_timebase,
      run_call, run_call_systick, step_some, run_pure, run_emit, iic_wait_ack, iic_Stop,
      iic_Start, iic_Send_Byte, iic_nack, iic_Read_Byte,
      hy, hf, if_true, if_false, tick0, tick1, frame_byte, List.append_assoc,
      List.cons_append, List.nil_append, List.append_nil, Nat.add_assoc, Nat.add_zero]

/-- A run of `aht21_deInst` returns `0`, makes no call, leaves the statics of `aht21_inst`
as they are and leaves the instance with a null table pointer and null method slots. -/
theorem aht21_deInst_run (w : World) (p : Ptr) (inst : bsp_aht21_t)
    (h : DeInstReady w p inst) :
    ∃ w', aht21_deInst p w = some (0, w') ∧
      w'.iic_driver_interface = w.iic_driver_interface ∧ w'.trace = w.trace ∧
      w'.aht21_mem p = some (unbound inst) := by
  obtain ⟨h1, h2, h3, h4⟩ := h
  unfold aht21_deInst
  by_cases ht : inst.iic_driver_interface_t = NULL <;>
  by_cases hb : inst.pftimebase_interface = NULL
  · simp only [run_bind, run_pure, step_some, load_aht21_apply, modify_aht21_apply,
      modify_iic_apply, modify_timebase_apply, h1, h2, ht, hb, ne_eq, not_false_eq_true,
      not_true_eq_false, if_true, if_false, Option.map_some', Function.update_same,
      Function.update_idem]
    exact ⟨_, rfl, rfl, rfl, by simp [unbound, ht, hb]⟩
  · obtain ⟨tb, h4⟩ := h4.resolve_left hb
    simp only [run_bind, run_pure, step_some, load_aht21_apply, modify_aht21_apply,
      modify_iic_apply, modify_timebase_apply, h1, h2, ht, hb, h4, ne_eq, not_false_eq_true,
      not_true_eq_false, if_true, if_false, Option.map_some', Function.update_same,
      Function.update_idem]
    exact ⟨_, rfl, rfl, rfl, by simp [unbound, ht]⟩
  · obtain ⟨tbl, h3⟩ := h3.resolve_left ht
    simp only [run_bind, run_pure, step_some, load_aht21_apply, modify_aht21_apply,
      modify_iic_apply, modify_timebase_apply, h1, h2, ht, hb, h3, ne_eq, not_false_eq_true,
      not_true_eq_false, if_true, if_false, Option.map_some', Function.update_same,
      Function.update_idem]
    exact ⟨_, rfl, rfl, rfl, by simp [unbound, hb]⟩
  · obtain ⟨tbl, h3⟩ := h3.resolve_left ht
    obtain ⟨tb, h4⟩ := h4.resolve_left hb
    simp only [run_bind, run_pure, step_some, load_aht21_apply, modify_aht21_apply,
      modify_iic_apply, modify_timebase_apply, h1, h2, ht, hb, h3, h4, ne_eq,
      not_false_eq_true, not_true_eq_false, if_true, if_false, Option.map_some',
      Function.update_same, Function.update_idem]
    exact ⟨_, rfl, rfl, rfl, by simp [unbound]⟩

/-- While `pfStart` of the static table of `aht21_inst` is null (it is at program start and
no statement assigns it), a call of `aht21_inst` with non-null arguments and valid pointers
returns `RET_CODE_ERROR_PARAM_NULL`, whatever the supplied transport table holds; it makes
no call, unbinds the instance, and `pfStart` of the static table is still null afterwards. -/
theorem aht21_inst_param_null (w : World) (a i t : Ptr) (y : FnPtr) (inst : bsp_aht21_t)
    (src : iic_driver_interface_t) (hd : DeInstReady w a inst) (hi : i ≠ NULL)
    (hsrc : w.iic_mem i = some src) (ht : t ≠ NULL) (hy : y ≠ FnPtr.null)
    (hs : w.iic_driver_interface.pfStart = FnPtr.null) :
    ∃ w', aht21_inst a i t y w = some (RET_CODE_ERROR_PARAM_NULL, w') ∧
      w'.iic_driver_interface.pfStart = FnPtr.null ∧ w'.trace = w.trace ∧
      w'.aht21_mem a = some (unbound inst) := by
  obtain ⟨w', e1, e2, e3, e4⟩ := aht21_deInst_run
    { w with iic_driver_interface :=
      { w.iic_driver_interface with pfDeInit := src.pfDeInit, pfReadReg := src.pfReadReg,
                                    pfWriteReg := src.pfWriteReg, pfInit := src.pfInit } }
    a inst ⟨hd.1, hd.2, hd.3, hd.4⟩
  have ha := hd.1
  have e5 : Exec.step (aht21_deInst a
      { w with iic_driver_interface :=
        { w.iic_driver_interface with pfDeInit := src.pfDeInit, pfReadReg := src.pfReadReg,
                                      pfWriteReg := src.pfWriteReg, pfInit := src.pfInit } })
      (fun _ => (pure RET_CODE_ERROR_PARAM_NULL : Exec Int))
      = some (RET_CODE_ERROR_PARAM_NULL, w') := by
    rw [e1]; rfl
  refine ⟨w', ?_, ?_, e3, e4⟩
  · unfold aht21_inst
    simp only [ha, hi, ht, hy, if_false, run_bind, load_iic_apply, hsrc, Option.map_some',
      step_some, run_modify_iic_driver_interface, run_get_iic_driver_interface, hs, or_true,
      true_or, if_true]
    simp only [hs] at e5
    exact e5
  · rw [e2]; exact hs

/-! ## Claims on `aht21_read_data` -/

/-- C1: on the frame `{0x00, 0x19, 0x99, 0x9A, 0x66, 0x66}` (byte 0 bit 7 clear, 20-bit
temperature field `(b3 & 0x0F) * 2^16 + b4 * 2^8 + b5 = 681574`) `aht21_read_data` returns
success and stores the temperature `104857 * 200 / 2^20 - 50`, computed from the humidity
field `104857`, which differs from `681574 * 200 / 2^20 - 50`. -/
theorem aht21_read_data_temperature_sample :
    (frame_byte (sample_world (fun _ => 0) sample_frame (sample_handler 0)) 0).testBit 7 = false ∧
    (frame_byte (sample_world (fun _ => 0) sample_frame (sample_handler 0)) 3 &&& 0x0F) * 2 ^ 16
      + frame_byte (sample_world (fun _ => 0) sample_frame (sample_handler 0)) 4 * 2 ^ 8
      + frame_byte (sample_world (fun _ => 0) sample_frame (sample_handler 0)) 5 = 681574 ∧
    (∃ u w', aht21_read_data 1 0 0 (sample_world (fun _ => 0) sample_frame (sample_handler 0))
      = some ((RET_CODE_SUCCESS, (104857 : ℚ) * 200 / 2 ^ 20 - 50, u), w')) ∧
    (104857 : ℚ) * 200 / 2 ^ 20 - 50 ≠ (681574 : ℚ) * 200 / 2 ^ 20 - 50 := by
  refine ⟨by decide, by decide, ?_, by norm_num⟩
  have hd : frame_data (sample_world (fun _ => 0) sample_frame (sample_handler 0)) = 104857 := by
    decide
  have hb : frame_byte (sample_world (fun _ => 0) sample_frame (sample_handler 0)) 0 &&& 0x80 = 0 := by
    decide
  have e1 : f32_round (((104857 : ℕ) : ℚ) * 200) = 20971400 := by
    rw [f32_round_eq_self _ 2621425 3 (by decide) (by norm_num)]
    norm_num
  have e2 : f32_round ((20971400 : ℚ) / 2 ^ 20 - 50) = (104857 : ℚ) * 200 / 2 ^ 20 - 50 := by
    rw [f32_round_eq_self _ (-3932175) (-17) (by decide) (by norm_num)]
    norm_num
  rw [aht21_read_data_run _ 1 0 0 _ _ _ (sample_ready _ _ _), if_pos hb, hd,
    stored_temperature_eq 104857 (by norm_num), e1, e2]
  exact ⟨_, _, rfl⟩

/-- C2 as amended: for every frame whose byte 0 has bit 7 clear, `aht21_read_data` returns
success and stores the humidity `round(rawH * 100) / 2^20`, where
`rawH = b1 * 2^12 + b2 * 2^4 + (b3 >> 4)` and `round` is the binary32 rounding of the
product `data * 100.0f`.  The stored value differs from `rawH * 100 / 2^20` by at most
`rawH * 100 / 2^20 / 2^24`, and equals it when `rawH * 100 < 2^24`.  Two accepted frames
that agree on bytes 1 and 2 and on the top nibble of byte 3 give the same humidity,
whatever their bytes 0, 4, 5 and the bottom nibble of byte 3. -/
theorem aht21_read_data_humidity (w : World) (p : Ptr) (temp humi : ℚ) (inst : bsp_aht21_t)
    (tbl : iic_driver_interface_t) (tb : system_timebase_interface_t)
    (h : ReadReady w p inst tbl tb) (hclear : (frame_byte w 0).testBit 7 = false) :
    (∃ t w', aht21_read_data p temp humi w =
      some ((RET_CODE_SUCCESS, t, f32_round ((raw_humidity w : ℚ) * 100) / 2 ^ 20), w')) ∧
    |f32_round ((raw_humidity w : ℚ) * 100) / 2 ^ 20 - (raw_humidity w : ℚ) * 100 / 2 ^ 20|
      ≤ (raw_humidity w : ℚ) * 100 / 2 ^ 20 / 2 ^ 24 ∧
    (raw_humidity w * 100 < 2 ^ 24 →
      f32_round ((raw_humidity w : ℚ) * 100) / 2 ^ 20 = (raw_humidity w : ℚ) * 100 / 2 ^ 20) ∧
    (∀ (w2 : World) (p2 : Ptr) (temp2 humi2 : ℚ) (inst2 : bsp_aht21_t)
        (tbl2 : iic_driver_interface_t) (tb2 : system_timebase_interface_t),
      ReadReady w2 p2 inst2 tbl2 tb2 → (frame_byte w2 0).testBit 7 = false →
      frame_byte w2 1 = frame_byte w 1 → frame_byte w2 2 = frame_byte w 2 →
      frame_byte w2 3 >>> 4 = frame_byte w 3 >>> 4 →
      ∀ r r2 w' w2', aht21_read_data p temp humi w = some (r, w') →
        aht21_read_data p2 temp2 humi2 w2 = some (r2, w2') → r2.2.2 = r.2.2) := by
  have hb := (and_0x80_eq_zero_iff _).2 hclear
  have hlt : frame_data w < 16777216 := lt_trans (frame_data_lt w) (by norm_num)
  refine ⟨?_, ?_, ?_, ?_⟩
  · rw [aht21_read_data_run w p temp humi inst tbl tb h, if_pos hb,
      stored_humidity_eq _ hlt, frame_data_eq_raw]
    exact ⟨_, _, rfl⟩
  · have he := f32_round_err ((raw_humidity w : ℚ) * 100)
    have h0 : (0 : ℚ) ≤ (raw_humidity w : ℚ) * 100 :=
      mul_nonneg (Nat.cast_nonneg _) (by norm_num)
    rw [abs_of_nonneg h0] at he
    have hpos : (0 : ℚ) < 2 ^ 20 := by norm_num
    have e : (raw_humidity w : ℚ) * 100 / 2 ^ 20 / 2 ^ 24 * 2 ^ 20
        = (raw_humidity w : ℚ) * 100 / 16777216 := by ring
    rw [← sub_div, abs_div, abs_of_pos hpos, div_le_iff₀ hpos, e]
    exact he
  · intro hsmall
    have hn : raw_humidity w * 100 < 16777216 := by
      have : (2 : ℕ) ^ 24 = 16777216 := by norm_num
      omega
    have e := f32_round_natCast (raw_humidity w * 100) hn
    push_cast at e
    rw [e]
  · intro w2 p2 temp2 humi2 inst2 tbl2 tb2 h2 hclear2 e1 e2 e3 r r2 w' w2' hr hr2
    have hb2 := (and_0x80_eq_zero_iff _).2 hclear2
    have hraw : frame_data w2 = frame_data w := by
      rw [frame_data_eq, frame_data_eq, e1, e2, e3]
    rw [aht21_read_data_run w p temp humi inst tbl tb h, if_pos hb] at hr
    rw [aht21_read_data_run w2 p2 temp2 humi2 inst2 tbl2 tb2 h2, if_pos hb2, hraw] at hr2
    simp only [Option.some.injEq, Prod.mk.injEq] at hr hr2
    rw [← hr.1, ← hr2.1]

/-- C2, on the frame `{0x00, 0x19, 0x99, 0x9A, 0x66, 0x66}`: the humidity stored is
`104857 * 100 / 2^20`. -/
theorem aht21_read_data_humidity_witness :
    ∃ t w', aht21_read_data 1 0 0 (sample_world (fun _ => 0) sample_frame (sample_handler 0))
      = some ((RET_CODE_SUCCESS, t, (104857 : ℚ) * 100 / 2 ^ 20), w') := by
  obtain ⟨h1, -, h3, -⟩ :=
    aht21_read_data_humidity (sample_world (fun _ => 0) sample_frame (sample_handler 0))
      1 0 0 bound_sensor full_table full_timebase (sample_ready _ _ _) (by decide)
  have e : raw_humidity (sample_world (fun _ => 0) sample_frame (sample_handler 0))
      = 104857 := by decide
  rw [h3 (by rw [e]; norm_num), e] at h1
  exact h1

/-- C2 as stated fails on the frame `{0x00, 0xA3, 0xD7, 0x10, 0x00, 0x00}` (byte 0 bit 7
clear, `rawH = 0xA3D71 = 671089`): the product `671089 * 100 = 67108900` lies halfway
between two binary32 values and is rounded to `67108896`, so the humidity stored is
`2097153 / 32768`, not `671089 * 100 / 2^20`. -/
theorem aht21_read_data_humidity_counterexample :
    (frame_byte (sample_world (fun _ => 0) (bytes [0x00, 0xA3, 0xD7, 0x10, 0x00, 0x00])
      (sample_handler 0)) 0).testBit 7 = false ∧
    raw_humidity (sample_world (fun _ => 0) (bytes [0x00, 0xA3, 0xD7, 0x10, 0x00, 0x00])
      (sample_handler 0)) = 671089 ∧
    ∃ t w', aht21_read_data 1 0 0
        (sample_world (fun _ => 0) (bytes [0x00, 0xA3, 0xD7, 0x10, 0x00, 0x00])
          (sample_handler 0))
        = some ((RET_CODE_SUCCESS, t, (2097153 : ℚ) / 32768), w') ∧
      (2097153 : ℚ) / 32768 ≠ (671089 : ℚ) * 100 / 2 ^ 20 := by
  refine ⟨by decide, by decide, ?_⟩
  have hd : frame_data (sample_world (fun _ => 0) (bytes [0x00, 0xA3, 0xD7, 0x10, 0x00, 0x00])
      (sample_handler 0)) = 671089 := by decide
  have hb : frame_byte (sample_world (fun _ => 0) (bytes [0x00, 0xA3, 0xD7, 0x10, 0x00, 0x00])
      (sample_handler 0)) 0 &&& 0x80 = 0 := by decide
  have e1 : f32_round (((671089 : ℕ) : ℚ) * 100) / 2 ^ 20 = (2097153 : ℚ) / 32768 := by
    have : (((671089 : ℕ) : ℚ) * 100) = 67108900 := by norm_num
    rw [this, f32_round_67108900]
    norm_num
  rw [aht21_read_data_run _ 1 0 0 _ _ _ (sample_ready _ _ _), if_pos hb, hd,
    stored_humidity_eq 671089 (by norm_num), e1]
  exact ⟨_, _, rfl, by norm_num⟩

/-- C3: for a frame whose byte 0 has bit 7 set, `aht21_read_data` returns `-1`, which is not
`RET_CODE_SUCCESS`, and the caller's temperature and humidity keep the values they had;
and whenever it returns `RET_CODE_SUCCESS`, bit 7 of byte 0 of the frame is clear. -/
theorem aht21_read_data_busy (w : World) (p : Ptr) (temp humi : ℚ) (inst : bsp_aht21_t)
    (tbl : iic_driver_interface_t) (tb : system_timebase_interface_t)
    (h : ReadReady w p inst tbl tb) :
    ((frame_byte w 0).testBit 7 = true →
      ∃ w', aht21_read_data p temp humi w = some ((-1, temp, humi), w')) ∧
    (-1 : Int) ≠ RET_CODE_SUCCESS ∧
    (∀ t u w', aht21_read_data p temp humi w = some ((RET_CODE_SUCCESS, t, u), w') →
      (frame_byte w 0).testBit 7 = false) := by
  refine ⟨?_, by decide, ?_⟩
  · intro hset
    have hb : ¬ (frame_byte w 0 &&& 0x80 = 0) := by
      rw [and_0x80_eq_zero_iff, hset]
      decide
    rw [aht21_read_data_run w p temp humi inst tbl tb h, if_neg hb]
    exact ⟨_, rfl⟩
  · intro t u w' hr
    rw [← and_0x80_eq_zero_iff]
    by_contra hb
    rw [aht21_read_data_run w p temp humi inst tbl tb h, if_neg hb] at hr
    simp [RET_CODE_SUCCESS] at hr

/-- C3, on the frame `{0x80, 0x19, 0x99, 0x9A, 0x66, 0x66}` with the caller's cells holding
`7` and `9`: the call returns `-1` and the cells still hold `7` and `9`. -/
theorem aht21_read_data_busy_witness :
    ∃ w', aht21_read_data 1 7 9
        (sample_world (fun _ => 0) (bytes [0x80, 0x19, 0x99, 0x9A, 0x66, 0x66]) (sample_handler 0))
      = some ((-1, 7, 9), w') :=
  (aht21_read_data_busy
    (sample_world (fun _ => 0) (bytes [0x80, 0x19, 0x99, 0x9A, 0x66, 0x66]) (sample_handler 0))
    1 7 9 bound_sensor full_table full_timebase (sample_ready _ _ _)).1 (by decide)

/-- C5: with a tick source that returns `1000` and then `1001` (one tick elapsed) and a yield
callback that returns at once, `aht21_read_data` yields once, reads no further tick and then
reads the six frame bytes: the minimum measurement latency of 75 ticks is not respected. -/
theorem aht21_read_data_latency_sample :
    ∃ r w', aht21_read_data 1 0 0
        (sample_world (fun n => 1000 + n) sample_frame (sample_handler 0)) = some (r, w') ∧
      w'.trace =
        [Event.pfWriteReg (FnPtr.user 10) 0x38 [0xAC, 0x33, 0x00] 3,
         Event.mcu_get_systick_count (FnPtr.user 12) 1000,
         Event.mcu_get_systick_count (FnPtr.user 12) 1001,
         Event.pfyield (FnPtr.user 20) 1,
         Event.iic_wait_ack 0x38,
         Event.iic_Read_Byte 0x38 0x00, Event.iic_Read_Byte 0x38 0x19,
         Event.iic_Read_Byte 0x38 0x99, Event.iic_Read_Byte 0x38 0x9A,
         Event.iic_Read_Byte 0x38 0x66, Event.iic_Read_Byte 0x38 0x66,
         Event.iic_Stop] ∧
      min_latency_respected none false w'.trace = false := by
  rw [aht21_read_data_run _ 1 0 0 _ _ _ (sample_ready _ _ _)]
  refine ⟨_, _, rfl, ?_, ?_⟩ <;> decide

/-- C10: in every run of `aht21_read_data` on a bound instance, whatever the frame, the calls
that reach the bus are, in order: one register write to address `0x38` with the three bytes
`{0xAC, 0x33, 0x00}`, the wait for the acknowledge, six byte reads and one stop. -/
theorem aht21_read_data_wire (w : World) (p : Ptr) (temp humi : ℚ) (inst : bsp_aht21_t)
    (tbl : iic_driver_interface_t) (tb : system_timebase_interface_t)
    (h : ReadReady w p inst tbl tb) :
    ∃ r w' calls, aht21_read_data p temp humi w = some (r, w') ∧
      w'.trace = w.trace ++ calls ∧
      calls.filter is_bus_call =
        [Event.pfWriteReg tbl.pfWriteReg 0x38 [0xAC, 0x33, 0x00] 3,
         Event.iic_wait_ack 0x38,
         Event.iic_Read_Byte 0x38 (frame_byte w 0), Event.iic_Read_Byte 0x38 (frame_byte w 1),
         Event.iic_Read_Byte 0x38 (frame_byte w 2), Event.iic_Read_Byte 0x38 (frame_byte w 3),
         Event.iic_Read_Byte 0x38 (frame_byte w 4), Event.iic_Read_Byte 0x38 (frame_byte w 5),
         Event.iic_Stop] := by
  rw [aht21_read_data_run w p temp humi inst tbl tb h]
  refine ⟨_, _, read_data_calls w p inst tbl tb, rfl, rfl, ?_⟩
  unfold read_data_calls
  split <;> rfl

/-- C10, on the frame `{0x00, 0x19, 0x99, 0x9A, 0x66, 0x66}`: the calls of the run, with
the tick reads and the yield left out. -/
theorem aht21_read_data_wire_witness :
    ∃ r w' calls, aht21_read_data 1 0 0
        (sample_world (fun n => 1000 + n) sample_frame (sample_handler 0)) = some (r, w') ∧
      w'.trace = calls ∧
      calls.filter is_bus_call =
        [Event.pfWriteReg (FnPtr.user 10) 0x38 [0xAC, 0x33, 0x00] 3,
         Event.iic_wait_ack 0x38,
         Event.iic_Read_Byte 0x38 0x00, Event.iic_Read_Byte 0x38 0x19,
         Event.iic_Read_Byte 0x38 0x99, Event.iic_Read_Byte 0x38 0x9A,
         Event.iic_Read_Byte 0x38 0x66, Event.iic_Read_Byte 0x38 0x66,
         Event.iic_Stop] :=
  aht21_read_data_wire (sample_world (fun n => 1000 + n) sample_frame (sample_handler 0))
    1 0 0 bound_sensor full_table full_timebase (sample_ready _ _ _)

/-! ## Claims on the handler -/

/-- One run of `aht21_handler_deInst` on a handler that exists: the two deletions are
called with the handler's lock and queue, the eleven fields are cleared, nothing else
changes and `aht21_deInit` is not reached. -/
theorem aht21_handler_deInst_run (w : World) (handler : Ptr) (hs : bsp_aht21_handler_t)
    (hp : handler ≠ NULL) (hm : w.handler_mem handler = some hs) :
    aht21_handler_deInst handler w =
      some (RET_CODE_SUCCESS,
        { w with handler_mem := Function.update w.handler_mem handler (some (cleared hs)),
                 trace := w.trace ++
                   [Event.vSemaphoreDelete hs.init_lock, Event.vQueueDelete hs.queue_event] }) := by
  unfold aht21_handler_deInst aht21_handler_deInit
  simp only [run_bind, run_pure, step_some, load_handler_apply, modify_handler_apply, hp, hm,
    ne_eq, not_false_eq_true, if_true, if_false, Option.map_some', vSemaphoreDelete,
    vQueueDelete, run_emit, Function.update_same, Function.update_idem, not_true_eq_false,
    List.append_assoc, List.cons_append, List.nil_append, cleared]

/-- A run of `aht21_handler_deInst` on the null handler pointer does nothing. -/
theorem aht21_handler_deInst_null (w : World) :
    aht21_handler_deInst NULL w = some (RET_CODE_SUCCESS, w) := by
  unfold aht21_handler_deInst
  simp only [ne_eq, not_true_eq_false, if_false, run_bind, run_pure, step_some]

/-- C7: a handler whose `aht21_instance` field is non-null (it points to the bound sensor at
address `1`) is shut down by `aht21_handler_deInst` with the two deletions as its only
calls: the transport's `pfDeInit` is not called, and afterwards the sensor instance and its
transport table are as they were, still bound. -/
theorem aht21_handler_deInst_sample :
    (sample_handler 1).aht21_instance ≠ NULL ∧
    ∃ w', aht21_handler_deInst 1 (sample_world (fun _ => 0) sample_frame (sample_handler 1))
        = some (RET_CODE_SUCCESS, w') ∧
      w'.trace = [Event.vSemaphoreDelete 7, Event.vQueueDelete 9] ∧
      w'.aht21_mem 1 = some bound_sensor ∧
      w'.iic_mem 1 = some full_table := by
  refine ⟨by decide, ?_⟩
  rw [aht21_handler_deInst_run _ 1 (sample_handler 1) (by decide) rfl]
  exact ⟨_, rfl, rfl, rfl, rfl⟩

/-- C8: on a handler whose `inited` flag is set, `aht21_handler_init` returns
`RET_CODE_HAS_BEEN_INITED` and leaves the whole world as it was: no field of the handler
changes and no call is made (no queue, no lock, no driver, no transport). -/
theorem aht21_handler_init_inited (w : World) (arg handler : Ptr) (hs : bsp_aht21_handler_t)
    (hp : handler ≠ NULL) (hm : w.handler_mem handler = some hs) (hi : hs.inited ≠ 0) :
    aht21_handler_init arg handler w = some (RET_CODE_HAS_BEEN_INITED, w) := by
  unfold aht21_handler_init
  simp only [run_bind, run_pure, step_some, load_handler_apply, hp, hm, hi, ne_eq,
    not_false_eq_true, if_true, if_false, Option.map_some']

/-- C8, on the sample handler with `inited` set to `1`. -/
theorem aht21_handler_init_inited_witness :
    aht21_handler_init 1 1 (sample_world (fun _ => 0) sample_frame (sample_handler 1))
      = some (RET_CODE_HAS_BEEN_INITED,
          sample_world (fun _ => 0) sample_frame (sample_handler 1)) :=
  aht21_handler_init_inited _ 1 1 (sample_handler 1) (by decide) rfl (by decide)

/-- C9: called twice in a row on a handler pointer that is null or points to a handler,
`aht21_handler_deInst` returns `RET_CODE_SUCCESS` both times; the second call leaves memory
as the first left it (only the list of calls grows), and the only calls it makes are
deletions of the null handle. -/
theorem aht21_handler_deInst_twice (w : World) (handler : Ptr)
    (hv : handler = NULL ∨ ∃ hs, w.handler_mem handler = some hs) :
    ∃ w1 w2 calls2,
      aht21_handler_deInst handler w = some (RET_CODE_SUCCESS, w1) ∧
      aht21_handler_deInst handler w1 = some (RET_CODE_SUCCESS, w2) ∧
      w2 = { w1 with trace := w1.trace ++ calls2 } ∧
      ∀ e ∈ calls2, e = Event.vSemaphoreDelete NULL ∨ e = Event.vQueueDelete NULL := by
  by_cases hp : handler = NULL
  · subst hp
    exact ⟨w, w, [], aht21_handler_deInst_null w, aht21_handler_deInst_null w, by simp, by simp⟩
  · obtain h0 | ⟨hs, hm⟩ := hv
    · exact absurd h0 hp
    · refine ⟨_, _, [Event.vSemaphoreDelete NULL, Event.vQueueDelete NULL],
        aht21_handler_deInst_run w handler hs hp hm, ?_, rfl, by simp⟩
      rw [aht21_handler_deInst_run _ handler (cleared hs) hp (by simp)]
      simp [cleared]

/-- C9, on the sample handler: the first call deletes lock `7` and queue `9`, the second
call deletes only null handles. -/
theorem aht21_handler_deInst_twice_witness :
    ∃ w1 w2 calls2,
      aht21_handler_deInst 1 (sample_world (fun _ => 0) sample_frame (sample_handler 1))
        = some (RET_CODE_SUCCESS, w1) ∧
      aht21_handler_deInst 1 w1 = some (RET_CODE_SUCCESS, w2) ∧
      w2 = { w1 with trace := w1.trace ++ calls2 } ∧
      ∀ e ∈ calls2, e = Event.vSemaphoreDelete NULL ∨ e = Event.vQueueDelete NULL :=
  aht21_handler_deInst_twice (sample_world (fun _ => 0) sample_frame (sample_handler 1)) 1
    (Or.inr ⟨sample_handler 1, rfl⟩)

/-! ## Claims on `aht21_inst` and `aht21_init` -/

/-- C4: called at program start with non-null arguments and a transport table in which
every primitive is non-null, `aht21_inst` returns `RET_CODE_ERROR_PARAM_NULL`. -/
theorem aht21_inst_full_table_sample :
    (sample_world (fun _ => 0) sample_frame (sample_handler 0)).iic_mem 2 = some full_table ∧
    (full_table.pfInit ≠ FnPtr.null ∧ full_table.pfDeInit ≠ FnPtr.null ∧
      full_table.pfStart ≠ FnPtr.null ∧ full_table.pfStop ≠ FnPtr.null ∧
      full_table.pfWaitAck ≠ FnPtr.null ∧ full_table.pfSendByte ≠ FnPtr.null ∧
      full_table.pfReadByte ≠ FnPtr.null) ∧
    (sample_world (fun _ => 0) sample_frame (sample_handler 0)).timebase_mem 1
      = some full_timebase ∧
    full_timebase.mcu_get_systick_count ≠ FnPtr.null ∧
    (aht21_inst 1 2 1 (FnPtr.user 20)
        (sample_world (fun _ => 0) sample_frame (sample_handler 0))).map Prod.fst
      = some RET_CODE_ERROR_PARAM_NULL := by
  decide

/-- C6: for a device that reports the status byte `0x08`, `aht21_init` completes the status
query and returns `8`, not `0`; `aht21_handler_init` on the same world returns a non-zero
code and leaves the handler's `inited` flag unset. -/
theorem aht21_init_status_sample :
    (aht21_init 1 (sample_world (fun n => 1000 + n) (bytes [0x08]) (sample_handler 0))).map
        (fun r => (r.1, r.2.trace))
      = some (8,
          [Event.pfInit (FnPtr.user 1),
           Event.mcu_get_systick_count (FnPtr.user 12) 1000,
           Event.mcu_get_systick_count (FnPtr.user 12) 1001,
           Event.pfyield (FnPtr.user 20) 1,
           Event.iic_Start, Event.iic_Send_Byte 0x38 0x71, Event.iic_wait_ack 0x38,
           Event.iic_Read_Byte 0x38 0x08, Event.iic_Stop,
           Event.iic_Start, Event.iic_Send_Byte 0x38 0xBE, Event.iic_nack 0x38,
           Event.iic_Stop]) ∧
    (aht21_handler_init 1 1
        (sample_world (fun n => 1000 + n) (bytes [0x08]) (sample_handler 0))).map
        (fun r => (r.1, (r.2.handler_mem 1).map (fun h => h.inited)))
      = some (RET_CODE_ERROR_PARAM_NULL, some 0) := by
  decide

/-! ## Claims on the arithmetic of `aht21_read_data` -/

/-- C13: in `aht21_read_data`, with `t0` the tick value stored in the `int32_t` variable
`count` and `t1` the tick value read next, the elapsed time the code compares with 75 is
`(t1 - t0) mod 2^32`, whatever the two 32-bit values (also when `t1 < t0` or `t0 >= 2^31`),
and the yield callback is called exactly when that value is below 75. -/
theorem aht21_read_data_wraparound (w : World) (p : Ptr) (temp humi : ℚ) (inst : bsp_aht21_t)
    (tbl : iic_driver_interface_t) (tb : system_timebase_interface_t)
    (h : ReadReady w p inst tbl tb) :
    (elapsed (tick1 w) (to_int32 (tick0 w)) : Int) = ((tick1 w : Int) - (tick0 w : Int)) % 2 ^ 32 ∧
    ∃ r w' calls, aht21_read_data p temp humi w = some (r, w') ∧
      w'.trace = w.trace ++ calls ∧
      (Event.pfyield inst.pfyield p ∈ calls ↔
        ((tick1 w : Int) - (tick0 w : Int)) % 2 ^ 32 < 75) := by
  have h0 : tick0 w < 2 ^ 32 := Nat.mod_lt _ (by decide)
  have h1 : tick1 w < 2 ^ 32 := Nat.mod_lt _ (by decide)
  have he : (elapsed (tick1 w) (to_int32 (tick0 w)) : Int)
      = ((tick1 w : Int) - (tick0 w : Int)) % 2 ^ 32 := by
    rw [elapsed_to_int32 _ _ h0]
    omega
  refine ⟨he, ?_⟩
  rw [aht21_read_data_run w p temp humi inst tbl tb h]
  refine ⟨_, _, read_data_calls w p inst tbl tb, rfl, rfl, ?_⟩
  rw [← he]
  unfold read_data_calls
  split
  · rename_i hy
    simp only [List.mem_append, List.mem_cons, List.mem_singleton, List.mem_map, true_or,
      or_true, true_iff]
    exact_mod_cast hy
  · rename_i hy
    have hn : ¬ ((elapsed (tick1 w) (to_int32 (tick0 w)) : Int) < 75) := by exact_mod_cast hy
    simp [hn]

/-- C14: for every frame accepted by `aht21_read_data` (byte 0 bit 7 clear) the three
shifted byte fields of the assembled value do not overlap (their sum is their bitwise or),
the value is below `2^20`, and the two binary32 values stored, read as exact rationals,
satisfy `0 <= humidity < 100` and `-50 <= temperature < 150`. -/
theorem aht21_read_data_range (w : World) (p : Ptr) (temp humi : ℚ) (inst : bsp_aht21_t)
    (tbl : iic_driver_interface_t) (tb : system_timebase_interface_t)
    (h : ReadReady w p inst tbl tb) (hclear : (frame_byte w 0).testBit 7 = false) :
    frame_data w
      = (frame_byte w 3 >>> 4) ||| (frame_byte w 2 <<< 4) ||| (frame_byte w 1 <<< 12) ∧
    frame_data w < 2 ^ 20 ∧
    ∃ t u w', aht21_read_data p temp humi w = some ((RET_CODE_SUCCESS, t, u), w') ∧
      t = f32_round (f32_round ((frame_data w : ℚ) * 200) / 2 ^ 20 - 50) ∧
      u = f32_round ((frame_data w : ℚ) * 100) / 2 ^ 20 ∧
      0 ≤ u ∧ u < 100 ∧ -50 ≤ t ∧ t < 150 := by
  have hb := (and_0x80_eq_zero_iff _).2 hclear
  have b1 := frame_byte_lt w 1
  have b2 := frame_byte_lt w 2
  have b3 := frame_byte_lt w 3
  have hlt : frame_data w < 2 ^ 20 := frame_data_lt w
  have hlt24 : frame_data w < 16777216 := lt_trans hlt (by norm_num)
  have hq : (frame_data w : ℚ) ≤ 1048575 := by
    have : frame_data w ≤ 1048575 := by
      have : (2 : ℕ) ^ 20 = 1048576 := by norm_num
      omega
    exact_mod_cast this
  have hq0 : (0 : ℚ) ≤ (frame_data w : ℚ) := Nat.cast_nonneg _
  have hu0 : (0 : ℚ) ≤ f32_round ((frame_data w : ℚ) * 100) / 2 ^ 20 :=
    div_nonneg (f32_round_nonneg _ (mul_nonneg hq0 (by norm_num))) (by norm_num)
  have hu1 : f32_round ((frame_data w : ℚ) * 100) / 2 ^ 20 < 100 := by
    have hle := f32_round_le ((frame_data w : ℚ) * 100) 13107188 3 (by norm_num) (by norm_num)
      (by norm_num; linarith)
    rw [div_lt_iff₀ (by norm_num)]
    norm_num at hle ⊢
    linarith
  have hy0 : (0 : ℚ) ≤ f32_round ((frame_data w : ℚ) * 200) / 2 ^ 20 :=
    div_nonneg (f32_round_nonneg _ (mul_nonneg hq0 (by norm_num))) (by norm_num)
  have hy1 : f32_round ((frame_data w : ℚ) * 200) / 2 ^ 20 ≤ 209715008 / 2 ^ 20 := by
    have hle := f32_round_le ((frame_data w : ℚ) * 200) 13107188 4 (by norm_num) (by norm_num)
      (by norm_num; linarith)
    rw [div_le_div_iff_of_pos_right (by norm_num)]
    norm_num at hle ⊢
    exact hle
  have ht0 : (-50 : ℚ) ≤ f32_round (f32_round ((frame_data w : ℚ) * 200) / 2 ^ 20 - 50) := by
    have hge := le_f32_round (f32_round ((frame_data w : ℚ) * 200) / 2 ^ 20 - 50) 25 1
      (by norm_num) (by norm_num) (by norm_num; linarith)
    norm_num at hge ⊢
    exact hge
  have ht1 : f32_round (f32_round ((frame_data w : ℚ) * 200) / 2 ^ 20 - 50) < 150 := by
    have hle := f32_round_le (f32_round ((frame_data w : ℚ) * 200) / 2 ^ 20 - 50) 9830388 (-16)
      (by norm_num) (by norm_num) (by norm_num at hy1 ⊢; linarith)
    norm_num at hle ⊢
    linarith
  have hor : frame_data w
      = (frame_byte w 3 >>> 4) ||| (frame_byte w 2 <<< 4) ||| (frame_byte w 1 <<< 12) := by
    have h3 : frame_byte w 3 >>> 4 < 2 ^ 4 := by
      simp only [Nat.shiftRight_eq_div_pow]; omega
    have e1 : (frame_byte w 3 >>> 4) ||| (frame_byte w 2 <<< 4)
        = 2 ^ 4 * frame_byte w 2 + (frame_byte w 3 >>> 4) := by
      rw [Nat.mul_add_lt_is_or h3, Nat.lor_comm, Nat.shiftLeft_eq, Nat.mul_comm]
    have h2 : 2 ^ 4 * frame_byte w 2 + (frame_byte w 3 >>> 4) < 2 ^ 12 := by omega
    rw [e1, Nat.lor_comm, Nat.shiftLeft_eq, Nat.mul_comm (frame_byte w 1),
      ← Nat.mul_add_lt_is_or h2, frame_data_eq]
    omega
  refine ⟨hor, hlt, ?_⟩
  rw [aht21_read_data_run w p temp humi inst tbl tb h, if_pos hb,
    stored_temperature_eq _ hlt24, stored_humidity_eq _ hlt24]
  exact ⟨_, _, _, rfl, rfl, rfl, hu0, hu1, ht0, ht1⟩

/-- C13, with the tick counter wrapping between the two reads (`t0 = 2^32 - 10`, stored as
the negative `count = -10`, and `t1 = 20`): 30 ticks have elapsed and the yield callback
is called. -/
theorem aht21_read_data_wraparound_witness :
    to_int32 4294967286 = -10 ∧
    ∃ r w' calls, aht21_read_data 1 0 0
        (sample_world (bytes [4294967286, 20]) sample_frame (sample_handler 0)) = some (r, w') ∧
      w'.trace = calls ∧ Event.pfyield (FnPtr.user 20) 1 ∈ calls := by
  obtain ⟨-, r, w', calls, h1, h2, h3⟩ := aht21_read_data_wraparound
    (sample_world (bytes [4294967286, 20]) sample_frame (sample_handler 0))
    1 0 0 bound_sensor full_table full_timebase (sample_ready _ _ _)
  exact ⟨by decide, r, w', calls, h1, by simpa [sample_world] using h2, h3.2 (by decide)⟩

/-- C14, on the frame `{0x00, 0xFF, 0xFF, 0xFF, 0xFF, 0xFF}`, which gives the largest
assembled value `2^20 - 1`. -/
theorem aht21_read_data_range_witness :
    frame_data (sample_world (fun _ => 0) (bytes [0x00, 0xFF, 0xFF, 0xFF, 0xFF, 0xFF])
      (sample_handler 0)) = 2 ^ 20 - 1 ∧
    ∃ t u w', aht21_read_data 1 0 0
        (sample_world (fun _ => 0) (bytes [0x00, 0xFF, 0xFF, 0xFF, 0xFF, 0xFF])
          (sample_handler 0)) = some ((RET_CODE_SUCCESS, t, u), w') ∧
      0 ≤ u ∧ u < 100 ∧ -50 ≤ t ∧ t < 150 := by
  obtain ⟨-, -, t, u, w', h1, -, -, h2⟩ := aht21_read_data_range
    (sample_world (fun _ => 0) (bytes [0x00, 0xFF, 0xFF, 0xFF, 0xFF, 0xFF]) (sample_handler 0))
    1 0 0 bound_sensor full_table full_timebase (sample_ready _ _ _) (by decide)
  exact ⟨by decide, t, u, w', h1, h2⟩

/-! ## Claims on the init command -/

/-- On a bound instance `aht21_init` sends the init command byte `0xBE` exactly when
bit 7 of the status byte is clear. -/
theorem init_calls_command_iff (w : World) (p : Ptr) (inst : bsp_aht21_t)
    (tbl : iic_driver_interface_t) (tb : system_timebase_interface_t) :
    Event.iic_Send_Byte AHT21_ADDR 0xBE ∈ init_calls w p inst tbl tb ↔
      (frame_byte w 0).testBit 7 = false := by
  rw [← and_0x80_eq_zero_iff]
  unfold init_calls
  by_cases hf : frame_byte w 0 &&& 0x80 = 0 <;>
  by_cases hy : elapsed (tick1 w) (to_int32 (tick0 w)) < 70 <;>
  simp [hf, hy]

/-- C12: `aht21_init` sends the status query `0x71` to address `0x38` and reads one status
byte.  For the status byte `0x08` (bit 3 set, bit 7 clear) it then sends the init command
`0xBE`, the non-acknowledge and the stop; for the status byte `0x80` (bit 3 clear, bit 7
set) it sends no init command. -/
theorem aht21_init_command_sample :
    (aht21_init 1 (sample_world (fun n => 1000 + 100 * n) (bytes [0x08]) (sample_handler 0))).map
        (fun r => r.2.trace)
      = some [Event.pfInit (FnPtr.user 1),
          Event.mcu_get_systick_count (FnPtr.user 12) 1000,
          Event.mcu_get_systick_count (FnPtr.user 12) 1100,
          Event.iic_Start, Event.iic_Send_Byte 0x38 0x71, Event.iic_wait_ack 0x38,
          Event.iic_Read_Byte 0x38 0x08, Event.iic_Stop,
          Event.iic_Start, Event.iic_Send_Byte 0x38 0xBE, Event.iic_nack 0x38,
          Event.iic_Stop] ∧
    (aht21_init 1 (sample_world (fun n => 1000 + 100 * n) (bytes [0x80]) (sample_handler 0))).map
        (fun r => r.2.trace)
      = some [Event.pfInit (FnPtr.user 1),
          Event.mcu_get_systick_count (FnPtr.user 12) 1000,
          Event.mcu_get_systick_count (FnPtr.user 12) 1100,
          Event.iic_Start, Event.iic_Send_Byte 0x38 0x71, Event.iic_wait_ack 0x38,
          Event.iic_Read_Byte 0x38 0x80, Event.iic_Stop] := by
  decide

end AHT21
